import Mathlib

/-!
Verification of the telemetry-to-alarm core of the StreamlitDashboard
repository (src/dashboard2.0.py and src/dashboard.py), as a shallow
embedding.  Python dicts keyed by strings become insertion-ordered
association lists, Python lists become `List` with Python indexing
(negative indices wrap around, out-of-range assignment faults), dicts
keyed by the contiguous ints `0 .. n-1` become `List` indexed without
wraparound (a missing key is a `KeyError`), `collections.deque` with a
`maxlen` drops its oldest element on overflow, floats become `ℚ`, and a
raised exception becomes a `some` error string paired with the state at
the moment of the raise (Python mutations made before the raise persist).
`time.time()` / `time.strftime` are modelled by an explicit `now : ℚ`
parameter and a formatting function on it.
-/

set_option maxRecDepth 8000
set_option maxHeartbeats 1600000

namespace StreamDash

/-- Python `d.get(k)` over an insertion-ordered association list. -/
def dictGet? {α : Type} : List (String × α) → String → Option α
  | [], _ => none
  | (k1, v1) :: rest, k => if k1 = k then some v1 else dictGet? rest k

/-- Python `d[k] = v`: overwrite the binding of `k` in place, else append. -/
def dictSet {α : Type} : List (String × α) → String → α → List (String × α)
  | [], k, v => [(k, v)]
  | (k1, v1) :: rest, k, v =>
    if k1 = k then (k, v) :: rest else (k1, v1) :: dictSet rest k v

/-- Python `d.setdefault(k, v)`. -/
def dictSetdefault {α : Type} (d : List (String × α)) (k : String) (v : α) :
    List (String × α) :=
  match dictGet? d k with
  | some _ => d
  | none => d ++ [(k, v)]

/-- Python list index resolution: negative indices count from the end;
anything else is an `IndexError`. -/
def pyIdx (len : Nat) (i : Int) : Option Nat :=
  if 0 ≤ i then
    if i < (len : Int) then some i.toNat else none
  else
    if -(len : Int) ≤ i then some (i + (len : Int)).toNat else none

/-- Python `xs[i]` on a list. -/
def pyGet {α : Type} (xs : List α) (i : Int) : Option α :=
  (pyIdx xs.length i).bind fun k => xs.get? k

/-- Python `xs[i] = v` on a list. -/
def pySet {α : Type} (xs : List α) (i : Int) (v : α) : Option (List α) :=
  (pyIdx xs.length i).map fun k => xs.set k v

/-- A Python dict keyed by the contiguous ints `0 .. len-1` (the shelf
history dict): no negative wraparound, a missing key is a `KeyError`. -/
def natIdx (len : Nat) (i : Int) : Option Nat :=
  if 0 ≤ i ∧ i < (len : Int) then some i.toNat else none

/-- `collections.deque(maxlen := maxlen)` append. -/
def dequeAppend {α : Type} (maxlen : Nat) (xs : List α) (v : α) : List α :=
  let ys := xs ++ [v]
  ys.drop (ys.length - maxlen)

/-- Python `x or d` for an optional float (`None` and `0.0` are falsy). -/
def pyOrQ (x : Option ℚ) (d : ℚ) : ℚ :=
  match x with
  | none => d
  | some v => if v = 0 then d else v

/-- Python `(s or d)` for an optional string (`None` and `""` are falsy). -/
def pyOrStr (x : Option String) (d : String) : String :=
  match x with
  | none => d
  | some s => if s = "" then d else s

/-- Python `s.upper()` (ASCII case mapping, character by character). -/
def pyUpper (s : String) : String := ⟨s.data.map Char.toUpper⟩

/-- Models `time.strftime` applied to the current time `now`. -/
def tsNow (now : ℚ) : String := toString now

/-- Models Python float formatting of a temperature value. -/
def fmtQ (q : ℚ) : String := toString q

namespace D2
/- Shallow embedding of src/dashboard2.0.py. -/

def HISTORY_LEN : Nat := 300
def LOG_LIMIT : Nat := 400
def DEFAULT_NUM_SHELVES : Nat := 2
def MIN_TEMP : ℚ := 0
def MAX_TEMP : ℚ := 120
def TEMP_STEP : ℚ := 1/2

/-- `def clamp(v, lo, hi): return max(lo, min(hi, v))` -/
def clamp (v lo hi : ℚ) : ℚ := max lo (min hi v)

/-- One element of `st.session_state.shelves`. -/
structure ShelfCfg where
  is_on : Bool
  setpoint : ℚ
  upper : ℚ
  lower : ℚ

/-- One alarm record as appended by `add_alarm`:
`{"shelf": shelf, "name": name, "desc": desc, "ts": time.time(), "ack": ack}`. -/
structure AlarmRec where
  shelf : Int
  name : String
  desc : String
  ts : ℚ
  ack : Bool

/-- `st.session_state.maintenance`. -/
structure Maintenance where
  fan_hours : ℚ
  element_hours : ℚ
  fan_life_hours : ℚ
  element_life_hours : ℚ
  last_service_fan : Option ℚ
  last_service_element : Option ℚ

/-- The severity buckets: `st.session_state.alarms`, a Python dict
severity-string → list of alarm records. -/
abbrev AlarmDict := List (String × List AlarmRec)

/-- The parts of `st.session_state` the telemetry/alarm core mutates. -/
structure DashState where
  num_shelves : Nat
  shelves : List ShelfCfg
  hist : List (List (Option ℚ))
  latest_temp : List (Option ℚ)
  alarms : AlarmDict
  logs : List String
  maintenance : Maintenance
  last_update_ts : ℚ

/-- Default shelf record used by `init_state` and the resize branch of
`process_msg`: `{"is_on": True, "setpoint": 75.0, "upper": 77.0, "lower": 73.0}`. -/
def defaultShelf : ShelfCfg :=
  { is_on := true, setpoint := 75, upper := 77, lower := 73 }

/-- `init_state()` (the session-state fields of the core). -/
def initState : DashState :=
  { num_shelves := DEFAULT_NUM_SHELVES
    shelves := List.replicate DEFAULT_NUM_SHELVES defaultShelf
    hist := List.replicate DEFAULT_NUM_SHELVES []
    latest_temp := List.replicate DEFAULT_NUM_SHELVES none
    alarms := [("CRITICAL", []), ("ERROR", [])]
    logs := []
    maintenance :=
      { fan_hours := 0, element_hours := 0
        fan_life_hours := 2000, element_life_hours := 3000
        last_service_fan := none, last_service_element := none }
    last_update_ts := 0 }

/-- `_find_alarm(sev, shelf, name)`. -/
def find_alarm (sev : String) (shelf : Int) (name : String) (al : AlarmDict) :
    Option AlarmRec :=
  ((dictGet? al sev).getD []).find? fun a => a.shelf == shelf && a.name == name

/-- The severity bucket `alarms.get(sev, [])`, for stating properties. -/
def bucket (al : AlarmDict) (sev : String) : List AlarmRec :=
  (dictGet? al sev).getD []

/-- `add_alarm(sev, shelf, name, desc, ack=False)`. -/
def add_alarm (now : ℚ) (sev : String) (shelf : Int) (name desc : String)
    (ack : Bool) (st : DashState) : DashState :=
  let al := dictSetdefault st.alarms sev []
  match find_alarm sev shelf name al with
  | some _ => { st with alarms := al }
  | none =>
    { st with
      alarms := dictSet al sev
        (((dictGet? al sev).getD []) ++ [⟨shelf, name, desc, now, ack⟩])
      logs := dequeAppend LOG_LIMIT st.logs
        ("[" ++ tsNow now ++ "] Alarm: [" ++ sev ++ "] S" ++ toString shelf
          ++ " " ++ name) }

/-- The in-place flag flip of `ack_alarm`: sets `ack` on the first record
matching `(shelf, name)`, as `_find_alarm` returns the first match. -/
def setAckFirst (shelf : Int) (name : String) : List AlarmRec → List AlarmRec
  | [] => []
  | a :: rest =>
    if a.shelf == shelf && a.name == name then { a with ack := true } :: rest
    else a :: setAckFirst shelf name rest

/-- `ack_alarm(sev, shelf, name)`; the `send_to_pi` call is an external
effect with no bearing on the session state. -/
def ack_alarm (now : ℚ) (sev : String) (shelf : Int) (name : String)
    (st : DashState) : DashState :=
  match find_alarm sev shelf name st.alarms with
  | none => st
  | some a =>
    if !a.ack then
      { st with
        alarms := dictSet st.alarms sev (setAckFirst shelf name (bucket st.alarms sev))
        logs := dequeAppend LOG_LIMIT st.logs
          ("[" ++ tsNow now ++ "] Ack: [" ++ sev ++ "] S" ++ toString shelf
            ++ " " ++ name) }
    else st

/-- `clear_alarm(sev, shelf, name)`; reads `st.session_state.alarms[sev]`
directly, so a missing severity key is a `KeyError`. -/
def clear_alarm (now : ℚ) (sev : String) (shelf : Int) (name : String)
    (st : DashState) : DashState × Option String :=
  match dictGet? st.alarms sev with
  | none => (st, some "KeyError: alarms")
  | some arr =>
    if arr.any (fun a => a.shelf == shelf && a.name == name) then
      ({ st with
        alarms := dictSet st.alarms sev
          (arr.filter fun a => !(a.shelf == shelf && a.name == name))
        logs := dequeAppend LOG_LIMIT st.logs
          ("[" ++ tsNow now ++ "] Cleared: [" ++ sev ++ "] S" ++ toString shelf
            ++ " " ++ name) }, none)
    else (st, none)

/-- `ack_all_alarms`, one severity bucket: reads
`st.session_state.alarms[sev]` directly (`KeyError` if missing) and sets
`a["ack"] = True` on every record. -/
def ackBucket (st : DashState) (sev : String) : DashState × Option String :=
  match dictGet? st.alarms sev with
  | none => (st, some "KeyError: alarms")
  | some arr =>
    ({ st with alarms := dictSet st.alarms sev (arr.map fun a => { a with ack := true }) },
      none)

/-- `ack_all_alarms()`: iterates the two literal buckets then logs once. -/
def ack_all_alarms (now : ℚ) (st : DashState) : DashState × Option String :=
  match ackBucket st "CRITICAL" with
  | (st1, some e) => (st1, some e)
  | (st1, none) =>
    match ackBucket st1 "ERROR" with
    | (st2, some e) => (st2, some e)
    | (st2, none) =>
      let line := "[" ++ tsNow now ++ "] Ack all alarms"
      ({ st2 with logs := dequeAppend LOG_LIMIT st2.logs line }, none)

/-- One element of a message's `alarms` list (all fields optional in the
incoming JSON object). -/
structure AlarmEntry where
  name : Option String
  active : Option Bool
  severity : Option String
  desc : Option String
  ack : Option Bool

/-- One element of a STATUS message's `shelves` list. -/
structure ShelfEntry where
  shelf : Option Int
  temp : Option ℚ
  setpoint : Option (List ℚ)
  systemOn : Option Bool
  fanHours : Option ℚ
  elementHours : Option ℚ
  alarms : Option (List AlarmEntry)

/-- The `maintenance` field of a STATUS message: either a JSON list of
numbers or some non-list value. -/
inductive MaintVal where
  | list (xs : List ℚ)
  | nonList

/-- The decoded messages `process_msg` dispatches on; `other` is a
decodable JSON object whose `type` is not one of the four recognized
kinds, and `nonDict` is a decodable line whose top-level JSON value is
not an object (a list, string, number or null): `SerialLink.read_all`
appends `json.loads(s)` of any such line to the batch, and
`msg.get("type")` then raises `AttributeError`. -/
inductive Msg where
  | status (shelves : Option (List ShelfEntry)) (maintenance : Option MaintVal)
  | liveTemp (shelf : Option Int) (value : Option ℚ)
  | alarmState (shelf : Option Int) (alarms : Option (List AlarmEntry))
  | logMsg (ts : Option ℚ) (level : Option String) (msg : Option String)
  | other (raw : String)
  | nonDict

/-- The per-shelf alarm clearing shared by the STATUS and ALARM_STATE
branches: `for sev in ("CRITICAL", "ERROR"): st.session_state.alarms[sev] =
[a for a in st.session_state.alarms[sev] if a["shelf"] != idx]`.  The
direct `alarms[sev]` read is a `KeyError` when the key is missing. -/
def clearShelfSev (sev : String) (idx : Int) (al : AlarmDict) : Option AlarmDict :=
  match dictGet? al sev with
  | none => none
  | some arr => some (dictSet al sev (arr.filter fun a => !(a.shelf == idx)))

def clearShelfAlarms (idx : Int) (al : AlarmDict) : Option AlarmDict :=
  match clearShelfSev "CRITICAL" idx al with
  | none => none
  | some al1 => clearShelfSev "ERROR" idx al1

/-- The alarm rebuild loop of the STATUS branch:
`for a in sh.get("alarms", []): ... if active: add_alarm(...)`. -/
def raiseEntryAlarms (now : ℚ) (idx : Int) :
    List AlarmEntry → DashState → DashState
  | [], st => st
  | a :: rest, st =>
    let name := a.name.getD "ALARM"
    let active := a.active.getD false
    let sev := pyUpper (a.severity.getD "ERROR")
    let desc := a.desc.getD name
    let st1 := if active then add_alarm now sev idx name desc (a.ack.getD false) st else st
    raiseEntryAlarms now idx rest st1

/-- The contiguous "clear this shelf, re-raise from the entry" step of the
STATUS branch (lines 353-369 of dashboard2.0.py). -/
def statusAlarmPortion (now : ℚ) (idx : Int) (as1 : List AlarmEntry)
    (st : DashState) : DashState × Option String :=
  match clearShelfAlarms idx st.alarms with
  | none => (st, some "KeyError: alarms")
  | some al => (raiseEntryAlarms now idx as1 { st with alarms := al }, none)

/-- One iteration of `for idx, sh in enumerate(shelves)` in the STATUS
branch; `eIdx` is the `enumerate` index. -/
def process_entry (now : ℚ) (eIdx : Nat) (sh : ShelfEntry) (st : DashState) :
    DashState × Option String :=
  let incomingShelf : Int := sh.shelf.getD (Int.ofNat eIdx)
  let idx : Int := incomingShelf - 1
  let temp := sh.temp
  let sp_arr := sh.setpoint.getD [75, 77, 73]
  let sp := sp_arr.getD 0 75
  let up := sp_arr.getD 1 (sp + 2)
  let lo := sp_arr.getD 2 (sp - 2)
  match pySet st.latest_temp idx temp with
  | none => (st, some "IndexError: latest_temp")
  | some lt =>
  let st1 := { st with latest_temp := lt }
  match pyGet st1.shelves idx with
  | none => (st1, some "IndexError: shelves")
  | some b =>
  match pySet st1.shelves idx
      { b with setpoint := sp, upper := up, lower := lo,
               is_on := sh.systemOn.getD true } with
  | none => (st1, some "IndexError: shelves")
  | some shelves1 =>
  let st2 := { st1 with shelves := shelves1 }
  let histStep : DashState × Option String :=
    match temp with
    | none => (st2, none)
    | some tv =>
      match natIdx st2.hist.length idx with
      | none => (st2, some "KeyError: hist")
      | some k =>
        let h1 := st2.hist.set k (dequeAppend HISTORY_LEN (st2.hist.getD k []) (some tv))
        ({ st2 with hist := h1 }, none)
  match histStep with
  | (st3, some e) => (st3, some e)
  | (st3, none) =>
  let st4 := { st3 with maintenance :=
    { st3.maintenance with
      fan_hours := sh.fanHours.getD st3.maintenance.fan_hours
      element_hours := sh.elementHours.getD st3.maintenance.element_hours } }
  statusAlarmPortion now idx (sh.alarms.getD []) st4

/-- The `for idx, sh in enumerate(shelves)` loop; an exception raised by
one iteration aborts the rest of the message. -/
def process_entries (now : ℚ) : Nat → List ShelfEntry → DashState →
    DashState × Option String
  | _, [], st => (st, none)
  | eIdx, sh :: rest, st =>
    match process_entry now eIdx sh st with
    | (st1, some e) => (st1, some e)
    | (st1, none) => process_entries now (eIdx + 1) rest st1

/-- The destructive resize body of the STATUS branch (lines 320-325). -/
def resize_state (count : Nat) (st : DashState) : DashState :=
  { st with
    num_shelves := count
    shelves := List.replicate count defaultShelf
    hist := List.replicate count []
    latest_temp := List.replicate count none }

/-- `if count != st.session_state.num_shelves: <resize>` -/
def status_resize (count : Nat) (st : DashState) : DashState :=
  if count ≠ st.num_shelves then resize_state count st else st

/-- The alarm rebuild loop of the ALARM_STATE branch; note
`(a.get("severity") or "ERROR")` and the unguarded `a["name"]`, a
`KeyError` when an active entry has no name. -/
def raiseSnapshotAlarms (now : ℚ) (i : Int) :
    List AlarmEntry → DashState → DashState × Option String
  | [], st => (st, none)
  | a :: rest, st =>
    let sev := pyUpper (pyOrStr a.severity "ERROR")
    if a.active.getD false then
      match a.name with
      | none => (st, some "KeyError: name")
      | some nm =>
        raiseSnapshotAlarms now i rest
          (add_alarm now sev i nm (a.desc.getD nm) (a.ack.getD false) st)
    else raiseSnapshotAlarms now i rest st

/-- `process_msg(msg)`. -/
def process_msg (now : ℚ) (st : DashState) (msg : Msg) :
    DashState × Option String :=
  match msg with
  | .status shelvesOpt maintOpt =>
    let shelves := shelvesOpt.getD []
    let count := shelves.length
    let st0 := status_resize count st
    match process_entries now 0 shelves st0 with
    | (st1, some e) => (st1, some e)
    | (st1, none) =>
      let m := maintOpt.getD (.list [2000, 3000])
      let st2 :=
        match m with
        | .list (x0 :: x1 :: _) =>
          { st1 with maintenance :=
            { st1.maintenance with fan_life_hours := x0, element_life_hours := x1 } }
        | _ => st1
      ({ st2 with last_update_ts := now }, none)
  | .liveTemp shelfOpt valOpt =>
    let i : Int := shelfOpt.getD 1 - 1
    match pySet st.latest_temp i valOpt with
    | none => (st, some "IndexError: latest_temp")
    | some lt =>
      let st1 := { st with latest_temp := lt }
      match natIdx st1.hist.length i with
      | none => (st1, some "KeyError: hist")
      | some k =>
        ({ st1 with
            hist := st1.hist.set k
              (dequeAppend HISTORY_LEN (st1.hist.getD k []) valOpt)
            last_update_ts := now }, none)
  | .alarmState shelfOpt alarmsOpt =>
    let i : Int := shelfOpt.getD 1 - 1
    match clearShelfAlarms i st.alarms with
    | none => (st, some "KeyError: alarms")
    | some al =>
      let st1 := { st with alarms := al }
      match raiseSnapshotAlarms now i (alarmsOpt.getD []) st1 with
      | (st2, some e) => (st2, some e)
      | (st2, none) => ({ st2 with last_update_ts := now }, none)
  | .logMsg tsOpt levelOpt msgOpt =>
    let line := "[" ++ tsNow (tsOpt.getD now) ++ "] " ++ levelOpt.getD "INFO"
      ++ ": " ++ msgOpt.getD ""
    ({ st with logs := dequeAppend LOG_LIMIT st.logs line }, none)
  | .other _ => (st, none)
  | .nonDict => (st, some "AttributeError: get")

/-- One raw line from the serial link as seen by `SerialLink.read_all`:
either JSON-decodable (into a `Msg`, which includes `Msg.nonDict` for a
decodable non-object top-level value), an undecodable nonempty string,
or blank (skipped without logging). -/
inductive RawLine where
  | ok (m : Msg)
  | bad (s : String)
  | empty

/-- `SerialLink.read_all(max_lines=200)` over the lines the port yields
this tick: decodable lines are collected, undecodable ones are logged as
`RAW:` text, blank lines are skipped. -/
def read_all (now : ℚ) (lines : List RawLine) (st : DashState) :
    List Msg × DashState :=
  (lines.take 200).foldl
    (fun acc ln =>
      match ln with
      | .empty => acc
      | .ok m => (acc.1 ++ [m], acc.2)
      | .bad s =>
        let line := "[" ++ tsNow now ++ "] RAW: " ++ s
        (acc.1, { acc.2 with logs := dequeAppend LOG_LIMIT acc.2.logs line }))
    ([], st)

/-- The `for msg in msgs: process_msg(msg)` loop of `read_from_pi`; an
exception raised by `process_msg` propagates and aborts the batch. -/
def process_batch (now : ℚ) : List Msg → DashState → DashState × Option String
  | [], st => (st, none)
  | m :: rest, st =>
    match process_msg now st m with
    | (st1, some e) => (st1, some e)
    | (st1, none) => process_batch now rest st1

/-- `read_from_pi()` with the port's pending lines made explicit. -/
def read_from_pi (now : ℚ) (lines : List RawLine) (st : DashState) :
    DashState × Option String :=
  let p := read_all now lines st
  process_batch now p.1 p.2

/-- The demo alarm heuristic (lines 616-624), run after the random walk
has produced the clamped current temperature `cur` for shelf `i`. -/
def demo_alarm_heuristic (now cur upper : ℚ) (i : Int) (st : DashState) :
    DashState × Option String :=
  if cur > upper + 6 then
    let st1 := add_alarm now "CRITICAL" i "OVERHEAT"
      (fmtQ cur ++ "°C >> " ++ fmtQ upper ++ "°C") false st
    clear_alarm now "ERROR" i "OVERTEMP" st1
  else if cur > upper + 3 then
    let st1 := add_alarm now "ERROR" i "OVERTEMP"
      (fmtQ cur ++ "°C > " ++ fmtQ upper ++ "°C") false st
    clear_alarm now "CRITICAL" i "OVERHEAT" st1
  else
    match clear_alarm now "ERROR" i "OVERTEMP" st with
    | (st1, some e) => (st1, some e)
    | (st1, none) => clear_alarm now "CRITICAL" i "OVERHEAT" st1

/-- One shelf's slice of the demo-mode tick (lines 604-624); `delta` is
the value drawn from `random.uniform`. -/
def demoShelfTick (now delta : ℚ) (i : Nat) (st : DashState) :
    DashState × Option String :=
  match pyGet st.shelves (Int.ofNat i) with
  | none => (st, some "IndexError: shelves")
  | some b =>
  match pyGet st.latest_temp (Int.ofNat i) with
  | none => (st, some "IndexError: latest_temp")
  | some ltv =>
  let cur0 := pyOrQ ltv ((b.lower + b.upper) / 2)
  let cur1 := if b.is_on then cur0 + delta else cur0 - delta
  let cur := clamp cur1 MIN_TEMP MAX_TEMP
  match pySet st.latest_temp (Int.ofNat i) (some cur) with
  | none => (st, some "IndexError: latest_temp")
  | some lt =>
  let st1 := { st with latest_temp := lt }
  match natIdx st1.hist.length (Int.ofNat i) with
  | none => (st1, some "KeyError: hist")
  | some k =>
  let h1 := st1.hist.set k (dequeAppend HISTORY_LEN (st1.hist.getD k []) (some cur))
  let st2 := { st1 with hist := h1 }
  demo_alarm_heuristic now cur b.upper (Int.ofNat i) st2

/-- A normalized "raise" as it reaches `add_alarm`: used to state the
replace-for-shelf properties uniformly for both alarm rebuild loops. -/
structure RaiseItem where
  sev : String
  name : String
  desc : String
  ack : Bool

/-- Folding `add_alarm` over a list of normalized raises for shelf `idx`. -/
def raiseList (now : ℚ) (idx : Int) : List RaiseItem → DashState → DashState
  | [], st => st
  | it :: rest, st =>
    raiseList now idx rest (add_alarm now it.sev idx it.name it.desc it.ack st)

/-- The normalized raises performed by the STATUS-branch rebuild loop. -/
def statusItems (as1 : List AlarmEntry) : List RaiseItem :=
  as1.filterMap fun a =>
    if a.active.getD false then
      some ⟨pyUpper (a.severity.getD "ERROR"), a.name.getD "ALARM",
            a.desc.getD (a.name.getD "ALARM"), a.ack.getD false⟩
    else none

/-- The normalized raises performed by the ALARM_STATE rebuild loop
(defined only on the non-faulting entries: an active entry with no name
is a `KeyError`). -/
def snapItems (as1 : List AlarmEntry) : List RaiseItem :=
  as1.filterMap fun a =>
    if a.active.getD false then
      a.name.map fun nm =>
        ⟨pyUpper (pyOrStr a.severity "ERROR"), nm, a.desc.getD nm, a.ack.getD false⟩
    else none

/-- Everything in the session state except the log buffer; log lines are
write-only for the core, so two states with equal `coreOf` evolve with
equal `coreOf` under every message. -/
structure CoreView where
  num_shelves : Nat
  shelves : List ShelfCfg
  hist : List (List (Option ℚ))
  latest_temp : List (Option ℚ)
  alarms : AlarmDict
  maintenance : Maintenance
  last_update_ts : ℚ

def coreOf (s : DashState) : CoreView :=
  ⟨s.num_shelves, s.shelves, s.hist, s.latest_temp, s.alarms, s.maintenance,
    s.last_update_ts⟩

/-- The message list a run of `read_all` hands to the processing loop. -/
def decodedMsgs (lines : List RawLine) : List Msg :=
  (lines.take 200).filterMap fun ln =>
    match ln with
    | .ok m => some m
    | _ => none

/-- A STATUS per-shelf entry carrying nothing but its 1-based identity. -/
def entryOnly (k : Int) : ShelfEntry :=
  ⟨some k, none, none, none, none, none, none⟩

/-- A STATUS per-shelf entry carrying run-hour readings. -/
def entryHours (k : Int) (fh eh : ℚ) : ShelfEntry :=
  ⟨some k, none, none, none, some fh, some eh, none⟩

/-- A 3-shelf state with a CRITICAL alarm registered for shelf index 2,
used to exercise a shrinking STATUS resize. -/
def shrinkStart : DashState :=
  { initState with
    num_shelves := 3
    shelves := List.replicate 3 defaultShelf
    hist := List.replicate 3 []
    latest_temp := List.replicate 3 none
    alarms := [("CRITICAL", [⟨2, "STUCK", "d", 0, false⟩]), ("ERROR", [])] }

/-- A 2-shelf state with alarms for shelves 0 and 1 and non-default
bounds, used to exercise the growing STATUS resize of the spec example. -/
def growStart : DashState :=
  { initState with
    shelves := [⟨true, 60, 62, 58⟩, ⟨false, 90, 92, 88⟩]
    hist := [[some 60], [some 90]]
    latest_temp := [some 60, some 90]
    alarms := [("CRITICAL", [⟨0, "A", "d", 0, false⟩]),
               ("ERROR", [⟨1, "B", "d", 0, true⟩])] }

/-- A state whose maintenance ceilings differ from the 2000/3000 defaults. -/
def ceilStart : DashState :=
  { initState with maintenance :=
    { initState.maintenance with fan_life_hours := 5000, element_life_hours := 6000 } }

/-- A state with stale CRITICAL records for shelves 0 and 1, used to
exercise the ALARM_STATE replace-for-shelf step. -/
def snapStart : DashState :=
  { initState with
    alarms := [("CRITICAL", [⟨0, "OLD", "d", 0, false⟩, ⟨1, "KEEP", "d", 0, false⟩]),
               ("ERROR", [])] }

/-- An active snapshot alarm whose severity arrives lowercase and whose
acknowledged flag is set by the source. -/
def snapEntryEx : AlarmEntry :=
  ⟨some "OVERHEAT", some true, some "critical", some "hot", some true⟩

/-- The ceiling pair produced by the STATUS maintenance mapping: the
field defaults to `[2000, 3000]` when absent and is applied only when it
is a list of length at least 2; otherwise the prior ceilings stand. -/
def maintCeilings (maintOpt : Option MaintVal) (oldFan oldElem : ℚ) : ℚ × ℚ :=
  match maintOpt.getD (.list [2000, 3000]) with
  | .list (x0 :: x1 :: _) => (x0, x1)
  | _ => (oldFan, oldElem)

end D2

namespace D1
/- Shallow embedding of src/dashboard.py (the older demo dashboard). -/

def NUM_SHELVES : Nat := 2
def HISTORY_LEN : Nat := 120
def LOG_LIMIT : Nat := 300

/-- One record of `st.session_state.alarms[shelf]`:
`{"name": .., "severity": .., "ack": False, "desc": .., "ts": ..}`. -/
structure AlarmRec1 where
  name : String
  severity : String
  ack : Bool
  desc : String
  ts : ℚ

structure Bounds1 where
  setpoint : ℚ
  upper : ℚ
  lower : ℚ
  isOn : Bool

/-- The session state of dashboard.py; `alarms` is a dict keyed by the
shelf ints `0 .. NUM_SHELVES-1`, modelled positionally. -/
structure State1 where
  temps : List ℚ
  bounds : List Bounds1
  history : List (List ℚ)
  alarms : List (List AlarmRec1)
  logs : List String

def initState1 : State1 :=
  { temps := List.replicate NUM_SHELVES 72
    bounds := List.replicate NUM_SHELVES ⟨75, 80, 73, true⟩
    history := List.replicate NUM_SHELVES []
    alarms := List.replicate NUM_SHELVES []
    logs := [] }

/-- `def log(msg)`. -/
def log (now : ℚ) (m : String) (st : State1) : State1 :=
  { st with logs := dequeAppend LOG_LIMIT st.logs ("[" ++ tsNow now ++ "] " ++ m) }

/-- `add_alarm(shelf, name, severity, description)`: de-duplicates on the
alarm NAME alone within the shelf's list; `alarms[shelf]` is a `KeyError`
when the shelf key is missing. -/
def add_alarm (now : ℚ) (shelf : Nat) (name severity description : String)
    (st : State1) : State1 × Option String :=
  match st.alarms.get? shelf with
  | none => (st, some "KeyError: alarms")
  | some arr =>
    if arr.any (fun a => a.name == name) then (st, none)
    else
      let arr1 := arr ++ [⟨name, severity, false, description, now⟩]
      let st1 := { st with alarms := st.alarms.set shelf arr1 }
      (log now ("Alarm triggered: Shelf " ++ toString shelf ++ " " ++ name
        ++ " (" ++ severity ++ ")") st1, none)

/-- `acknowledge_alarm(shelf, name)`: flags every record matching the
name, logging once per match. -/
def acknowledge_alarm (now : ℚ) (shelf : Nat) (name : String) (st : State1) :
    State1 × Option String :=
  match st.alarms.get? shelf with
  | none => (st, some "KeyError: alarms")
  | some arr =>
    let arr1 := arr.map fun a => if a.name == name then { a with ack := true } else a
    let st1 := { st with alarms := st.alarms.set shelf arr1 }
    (arr.foldl
      (fun acc a =>
        if a.name == name then
          log now ("Alarm acknowledged: Shelf " ++ toString shelf ++ " " ++ name) acc
        else acc)
      st1, none)

/-- A state of dashboard.py holding an ERROR "OVERTEMP" record on shelf 0. -/
def dupStart : State1 :=
  { initState1 with alarms := [[⟨"OVERTEMP", "ERROR", false, "d", 0⟩], []] }

end D1

/-! ### Association-list (Python dict) lemmas -/

theorem dictGet?_dictSet {α : Type} (d : List (String × α)) (k : String) (v : α)
    (q : String) :
    dictGet? (dictSet d k v) q = if k = q then some v else dictGet? d q := by
  induction d with
  | nil => simp [dictSet, dictGet?]
  | cons hd t ih =>
    obtain ⟨k1, v1⟩ := hd
    by_cases h1 : k1 = k
    · subst h1
      simp only [dictSet, if_pos rfl, dictGet?]
      by_cases hq : k1 = q <;> simp [hq]
    · simp only [dictSet, if_neg h1, dictGet?]
      by_cases hq : k1 = q
      · subst hq
        have hk : ¬(k = k1) := fun h => h1 h.symm
        simp [hk]
      · simp [hq, ih]

theorem dictGet?_append {α : Type} (d1 d2 : List (String × α)) (q : String) :
    dictGet? (d1 ++ d2) q =
      match dictGet? d1 q with
      | some v => some v
      | none => dictGet? d2 q := by
  induction d1 with
  | nil => simp [dictGet?]
  | cons hd t ih =>
    obtain ⟨k1, v1⟩ := hd
    by_cases hq : k1 = q <;> simp [dictGet?, hq, ih]

theorem dictGet?_setdefault {α : Type} (d : List (String × α)) (k : String)
    (v : α) (q : String) :
    dictGet? (dictSetdefault d k v) q =
      if k = q then some ((dictGet? d k).getD v) else dictGet? d q := by
  unfold dictSetdefault
  cases hk : dictGet? d k with
  | some w =>
    by_cases hq : k = q
    · subst hq
      simp [hk]
    · simp [hq]
  | none =>
    rw [dictGet?_append]
    by_cases hq : k = q
    · subst hq
      simp [hk, dictGet?]
    · cases hg : dictGet? d q with
      | some w => simp [hg, hq]
      | none => simp [hg, hq, dictGet?]

namespace D2

theorem bucket_dictSet (al : AlarmDict) (k : String) (v : List AlarmRec)
    (q : String) :
    bucket (dictSet al k v) q = if k = q then v else bucket al q := by
  unfold bucket
  rw [dictGet?_dictSet]
  by_cases hq : k = q <;> simp [hq]

theorem bucket_setdefault_nil (al : AlarmDict) (k q : String) :
    bucket (dictSetdefault al k []) q = bucket al q := by
  unfold bucket
  rw [dictGet?_setdefault]
  by_cases hq : k = q
  · subst hq
    cases dictGet? al k <;> simp
  · simp [hq]

theorem find_alarm_eq_bucket (sev : String) (shelf : Int) (name : String)
    (al : AlarmDict) :
    find_alarm sev shelf name al
      = (bucket al sev).find? fun a => a.shelf == shelf && a.name == name := rfl

theorem find_alarm_setdefault_nil (sev q : String) (shelf : Int) (name : String)
    (al : AlarmDict) :
    find_alarm sev shelf name (dictSetdefault al q []) = find_alarm sev shelf name al := by
  rw [find_alarm_eq_bucket, find_alarm_eq_bucket, bucket_setdefault_nil]

/-- When a record with the key exists, the severity key itself exists. -/
theorem dictGet?_isSome_of_find_alarm (sev : String) (shelf : Int) (name : String)
    (al : AlarmDict) (r : AlarmRec) (h : find_alarm sev shelf name al = some r) :
    ∃ arr, dictGet? al sev = some arr := by
  cases hg : dictGet? al sev with
  | none =>
    rw [find_alarm_eq_bucket] at h
    unfold bucket at h
    rw [hg] at h
    simp at h
  | some arr => exact ⟨arr, rfl⟩

/-! ### `add_alarm` lemmas -/

/-- Idempotent raise: when a record with the key already exists,
`add_alarm` is exactly the identity on the session state. -/
theorem add_alarm_found (now : ℚ) (sev : String) (shelf : Int) (name desc : String)
    (ack : Bool) (st : DashState) (r : AlarmRec)
    (h : find_alarm sev shelf name st.alarms = some r) :
    add_alarm now sev shelf name desc ack st = st := by
  obtain ⟨arr, hg⟩ := dictGet?_isSome_of_find_alarm sev shelf name st.alarms r h
  have hsd : dictSetdefault st.alarms sev [] = st.alarms := by
    unfold dictSetdefault
    rw [hg]
  simp only [add_alarm, hsd, h]

/-- Fresh raise: when no record with the key exists, `add_alarm` appends
exactly one record, carrying the given fields, to the severity bucket,
and appends exactly one log line. -/
theorem add_alarm_not_found (now : ℚ) (sev : String) (shelf : Int)
    (name desc : String) (ack : Bool) (st : DashState)
    (h : find_alarm sev shelf name st.alarms = none) :
    (add_alarm now sev shelf name desc ack st).alarms
        = dictSet (dictSetdefault st.alarms sev []) sev
            (bucket st.alarms sev ++ [⟨shelf, name, desc, now, ack⟩])
      ∧ (add_alarm now sev shelf name desc ack st).logs
        = dequeAppend LOG_LIMIT st.logs
            ("[" ++ tsNow now ++ "] Alarm: [" ++ sev ++ "] S" ++ toString shelf
              ++ " " ++ name) := by
  have h2 : find_alarm sev shelf name (dictSetdefault st.alarms sev []) = none := by
    rw [find_alarm_setdefault_nil, h]
  simp only [add_alarm]
  rw [h2]
  constructor
  · show dictSet _ sev ((dictGet? (dictSetdefault st.alarms sev []) sev).getD [] ++ _) = _
    have : (dictGet? (dictSetdefault st.alarms sev []) sev).getD []
        = bucket st.alarms sev := bucket_setdefault_nil st.alarms sev sev
    rw [this]
  · rfl

theorem add_alarm_num_shelves (now : ℚ) (sev : String) (shelf : Int)
    (name desc : String) (ack : Bool) (st : DashState) :
    (add_alarm now sev shelf name desc ack st).num_shelves = st.num_shelves := by
  simp only [add_alarm]
  cases find_alarm sev shelf name (dictSetdefault st.alarms sev []) <;> rfl

theorem add_alarm_shelves (now : ℚ) (sev : String) (shelf : Int)
    (name desc : String) (ack : Bool) (st : DashState) :
    (add_alarm now sev shelf name desc ack st).shelves = st.shelves := by
  simp only [add_alarm]
  cases find_alarm sev shelf name (dictSetdefault st.alarms sev []) <;> rfl

theorem add_alarm_hist (now : ℚ) (sev : String) (shelf : Int)
    (name desc : String) (ack : Bool) (st : DashState) :
    (add_alarm now sev shelf name desc ack st).hist = st.hist := by
  simp only [add_alarm]
  cases find_alarm sev shelf name (dictSetdefault st.alarms sev []) <;> rfl

theorem add_alarm_latest_temp (now : ℚ) (sev : String) (shelf : Int)
    (name desc : String) (ack : Bool) (st : DashState) :
    (add_alarm now sev shelf name desc ack st).latest_temp = st.latest_temp := by
  simp only [add_alarm]
  cases find_alarm sev shelf name (dictSetdefault st.alarms sev []) <;> rfl

theorem add_alarm_maintenance (now : ℚ) (sev : String) (shelf : Int)
    (name desc : String) (ack : Bool) (st : DashState) :
    (add_alarm now sev shelf name desc ack st).maintenance = st.maintenance := by
  simp only [add_alarm]
  cases find_alarm sev shelf name (dictSetdefault st.alarms sev []) <;> rfl

theorem add_alarm_last_update_ts (now : ℚ) (sev : String) (shelf : Int)
    (name desc : String) (ack : Bool) (st : DashState) :
    (add_alarm now sev shelf name desc ack st).last_update_ts = st.last_update_ts := by
  simp only [add_alarm]
  cases find_alarm sev shelf name (dictSetdefault st.alarms sev []) <;> rfl

/-- Raising into one severity leaves every other severity bucket unchanged. -/
theorem bucket_add_alarm_other (now : ℚ) (sev : String) (shelf : Int)
    (name desc : String) (ack : Bool) (st : DashState) (q : String)
    (hq : q ≠ sev) :
    bucket (add_alarm now sev shelf name desc ack st).alarms q = bucket st.alarms q := by
  simp only [add_alarm]
  cases find_alarm sev shelf name (dictSetdefault st.alarms sev []) with
  | some r => exact bucket_setdefault_nil st.alarms sev q
  | none =>
    show bucket (dictSet (dictSetdefault st.alarms sev []) sev _) q = _
    rw [bucket_dictSet, if_neg (fun h => hq h.symm), bucket_setdefault_nil]

/-- After a raise, a record with the raised key is present; it is the
prior record when one existed, else the fresh one. -/
theorem find_alarm_add_same (now : ℚ) (sev : String) (shelf : Int)
    (name desc : String) (ack : Bool) (st : DashState) :
    find_alarm sev shelf name (add_alarm now sev shelf name desc ack st).alarms
      = some ((find_alarm sev shelf name st.alarms).getD ⟨shelf, name, desc, now, ack⟩) := by
  cases h : find_alarm sev shelf name st.alarms with
  | some r => rw [add_alarm_found now sev shelf name desc ack st r h, h]; rfl
  | none =>
    obtain ⟨hal, _⟩ := add_alarm_not_found now sev shelf name desc ack st h
    rw [find_alarm_eq_bucket, hal, bucket_dictSet, if_pos rfl, List.find?_append]
    rw [find_alarm_eq_bucket] at h
    rw [h]
    simp [List.find?]

/-- A raise does not disturb records under any other (severity, shelf,
name) key. -/
theorem find_alarm_add_other (now : ℚ) (sev : String) (shelf : Int)
    (name desc : String) (ack : Bool) (st : DashState)
    (q : String) (sh2 : Int) (nm2 : String)
    (hk : ¬(q = sev ∧ sh2 = shelf ∧ nm2 = name)) :
    find_alarm q sh2 nm2 (add_alarm now sev shelf name desc ack st).alarms
      = find_alarm q sh2 nm2 st.alarms := by
  by_cases hq : q = sev
  · subst hq
    cases h : find_alarm q shelf name st.alarms with
    | some r => rw [add_alarm_found now q shelf name desc ack st r h]
    | none =>
      obtain ⟨hal, _⟩ := add_alarm_not_found now q shelf name desc ack st h
      rw [find_alarm_eq_bucket, hal, bucket_dictSet, if_pos rfl, List.find?_append]
      have hrec : ((⟨shelf, name, desc, now, ack⟩ : AlarmRec).shelf == sh2
            && (⟨shelf, name, desc, now, ack⟩ : AlarmRec).name == nm2) = false := by
        have hne : ¬(sh2 = shelf ∧ nm2 = name) := fun hc => hk ⟨rfl, hc⟩
        by_cases h1 : sh2 = shelf
        · subst h1
          have h2 : ¬(nm2 = name) := fun hc => hne ⟨rfl, hc⟩
          have h3 : ¬(name = nm2) := fun hh => h2 hh.symm
          simp [h3]
        · have h3 : ¬(shelf = sh2) := fun hh => h1 hh.symm
          simp [h3]
      rw [find_alarm_eq_bucket]
      simp [List.find?, hrec]
  · rw [find_alarm_eq_bucket, find_alarm_eq_bucket,
      bucket_add_alarm_other now sev shelf name desc ack st q hq]

/-- A raise for shelf `shelf` preserves, in every bucket, the sublist of
records belonging to other shelves. -/
theorem filter_bucket_add_alarm (now : ℚ) (sev : String) (shelf : Int)
    (name desc : String) (ack : Bool) (st : DashState) (q : String) :
    (bucket (add_alarm now sev shelf name desc ack st).alarms q).filter
        (fun a => !(a.shelf == shelf))
      = (bucket st.alarms q).filter (fun a => !(a.shelf == shelf)) := by
  by_cases hq : q = sev
  · subst hq
    cases h : find_alarm q shelf name st.alarms with
    | some r => rw [add_alarm_found now q shelf name desc ack st r h]
    | none =>
      obtain ⟨hal, _⟩ := add_alarm_not_found now q shelf name desc ack st h
      rw [hal, bucket_dictSet, if_pos rfl, List.filter_append]
      simp
  · rw [bucket_add_alarm_other now sev shelf name desc ack st q hq]

/-! ### `clear_alarm` lemmas -/

/-- `clear_alarm` on a present severity bucket never faults. -/
theorem clear_alarm_ok (now : ℚ) (sev : String) (shelf : Int) (name : String)
    (st : DashState) (arr : List AlarmRec)
    (hg : dictGet? st.alarms sev = some arr) :
    (clear_alarm now sev shelf name st).2 = none := by
  simp only [clear_alarm, hg]
  by_cases h : arr.any (fun a => a.shelf == shelf && a.name == name) <;> simp [h]

/-- `clear_alarm` on a missing severity bucket is a `KeyError`. -/
theorem clear_alarm_keyerror (now : ℚ) (sev : String) (shelf : Int)
    (name : String) (st : DashState) (hg : dictGet? st.alarms sev = none) :
    clear_alarm now sev shelf name st = (st, some "KeyError: alarms") := by
  simp only [clear_alarm, hg]

/-- When `clear_alarm` returns without fault, no record with the cleared
key remains. -/
theorem clear_alarm_success_absent (now : ℚ) (sev : String) (shelf : Int)
    (name : String) (st : DashState)
    (h : (clear_alarm now sev shelf name st).2 = none) :
    find_alarm sev shelf name ((clear_alarm now sev shelf name st).1).alarms = none := by
  cases hg : dictGet? st.alarms sev with
  | none => rw [clear_alarm_keyerror now sev shelf name st hg] at h; simp at h
  | some arr =>
    simp only [clear_alarm, hg]
    by_cases hany : arr.any (fun a => a.shelf == shelf && a.name == name)
    · rw [if_pos hany]
      show find_alarm sev shelf name (dictSet st.alarms sev _) = none
      rw [find_alarm_eq_bucket, bucket_dictSet, if_pos rfl]
      refine List.find?_eq_none.2 fun x hx => ?_
      have := (List.mem_filter.1 hx).2
      simp only [Bool.not_eq_eq_eq_not, Bool.not_true] at this
      simp [this]
    · rw [if_neg hany]
      show find_alarm sev shelf name st.alarms = none
      rw [find_alarm_eq_bucket]
      refine List.find?_eq_none.2 fun x hx => ?_
      intro hpx
      exact hany (List.any_eq_true.2 ⟨x, by rwa [bucket, hg] at hx, hpx⟩)

/-! ### Replace-for-shelf lemmas -/

theorem clearShelfSev_eq (sev : String) (idx : Int) (al : AlarmDict)
    (arr : List AlarmRec) (hg : dictGet? al sev = some arr) :
    clearShelfSev sev idx al
      = some (dictSet al sev (arr.filter fun a => !(a.shelf == idx))) := by
  simp only [clearShelfSev, hg]

/-- The combined clear over both covered buckets: explicit description of
the result. -/
theorem clearShelfAlarms_eq (idx : Int) (al : AlarmDict)
    (c e : List AlarmRec)
    (hC : dictGet? al "CRITICAL" = some c) (hE : dictGet? al "ERROR" = some e) :
    clearShelfAlarms idx al
      = some (dictSet (dictSet al "CRITICAL" (c.filter fun a => !(a.shelf == idx)))
          "ERROR" (e.filter fun a => !(a.shelf == idx))) := by
  have h1 := clearShelfSev_eq "CRITICAL" idx al c hC
  have hE1 : dictGet? (dictSet al "CRITICAL" (c.filter fun a => !(a.shelf == idx)))
      "ERROR" = some e := by
    rw [dictGet?_dictSet]
    simp [hE]
  simp only [clearShelfAlarms, h1]
  exact clearShelfSev_eq "ERROR" idx _ e hE1

/-! ### Fold-of-raises lemmas -/

theorem statusItems_cons (a : AlarmEntry) (rest : List AlarmEntry) :
    statusItems (a :: rest)
      = (if a.active.getD false then
          [⟨pyUpper (a.severity.getD "ERROR"), a.name.getD "ALARM",
            a.desc.getD (a.name.getD "ALARM"), a.ack.getD false⟩]
         else []) ++ statusItems rest := by
  simp only [statusItems, List.filterMap_cons]
  by_cases hact : a.active.getD false <;> simp [hact]

theorem raiseEntryAlarms_eq_raiseList (now : ℚ) (idx : Int)
    (as1 : List AlarmEntry) : ∀ st : DashState,
    raiseEntryAlarms now idx as1 st = raiseList now idx (statusItems as1) st := by
  induction as1 with
  | nil => intro st; rfl
  | cons a rest ih =>
    intro st
    rw [statusItems_cons]
    by_cases hact : a.active.getD false
    · simp only [raiseEntryAlarms, hact, if_pos, List.cons_append, List.nil_append]
      rw [ih]
      rfl
    · simp only [raiseEntryAlarms, hact, if_neg, Bool.false_eq_true, List.nil_append]
      exact ih st

theorem snapItems_cons (a : AlarmEntry) (rest : List AlarmEntry) :
    snapItems (a :: rest)
      = (if a.active.getD false then
          (a.name.map fun nm =>
            (⟨pyUpper (pyOrStr a.severity "ERROR"), nm, a.desc.getD nm,
              a.ack.getD false⟩ : RaiseItem)).toList
         else []) ++ snapItems rest := by
  simp only [snapItems, List.filterMap_cons]
  by_cases hact : a.active.getD false
  · cases a.name <;> simp [hact]
  · simp [hact]

theorem raiseSnapshotAlarms_eq_raiseList (now : ℚ) (i : Int)
    (as1 : List AlarmEntry) : ∀ st : DashState,
    (∀ a ∈ as1, a.active.getD false = true → a.name.isSome) →
    raiseSnapshotAlarms now i as1 st = (raiseList now i (snapItems as1) st, none) := by
  induction as1 with
  | nil => intro st _; rfl
  | cons a rest ih =>
    intro st h
    rw [snapItems_cons]
    by_cases hact : a.active.getD false
    · have hname := h a (List.mem_cons_self a rest) hact
      cases hnm : a.name with
      | none => rw [hnm] at hname; simp at hname
      | some nm =>
        simp only [raiseSnapshotAlarms, hact, if_pos, hnm, Option.map_some,
          Option.toList_some, List.cons_append, List.nil_append]
        rw [ih _ fun a2 h2 => h a2 (List.mem_cons_of_mem a h2)]
        rfl
    · simp only [raiseSnapshotAlarms, hact, Bool.false_eq_true, if_neg,
        List.nil_append]
      exact ih st fun a2 h2 => h a2 (List.mem_cons_of_mem a h2)

theorem raiseList_filter_bucket (now : ℚ) (idx : Int) (items : List RaiseItem) :
    ∀ (st : DashState) (q : String),
    (bucket (raiseList now idx items st).alarms q).filter (fun a => !(a.shelf == idx))
      = (bucket st.alarms q).filter (fun a => !(a.shelf == idx)) := by
  induction items with
  | nil => intro st q; rfl
  | cons it rest ih =>
    intro st q
    simp only [raiseList]
    rw [ih, filter_bucket_add_alarm]

theorem raiseList_find_keep (now : ℚ) (idx : Int) (items : List RaiseItem) :
    ∀ (st : DashState) (sev : String) (sh : Int) (nm : String),
    (∀ it ∈ items, ¬(sev = it.sev ∧ sh = idx ∧ nm = it.name)) →
    find_alarm sev sh nm (raiseList now idx items st).alarms
      = find_alarm sev sh nm st.alarms := by
  induction items with
  | nil => intro st sev sh nm _; rfl
  | cons it rest ih =>
    intro st sev sh nm h
    simp only [raiseList]
    rw [ih _ sev sh nm fun it2 h2 => h it2 (List.mem_cons_of_mem it h2),
      find_alarm_add_other now it.sev idx it.name it.desc it.ack st sev sh nm
        (h it (List.mem_cons_self it rest))]

theorem raiseList_find_mem (now : ℚ) (idx : Int) (items : List RaiseItem) :
    ∀ (st : DashState) (sev nm : String),
    (find_alarm sev idx nm (raiseList now idx items st).alarms).isSome = true
      ↔ (find_alarm sev idx nm st.alarms).isSome = true
        ∨ ∃ it ∈ items, it.sev = sev ∧ it.name = nm := by
  induction items with
  | nil => intro st sev nm; simp [raiseList]
  | cons it rest ih =>
    intro st sev nm
    simp only [raiseList]
    rw [ih]
    by_cases hkey : sev = it.sev ∧ nm = it.name
    · obtain ⟨h1, h2⟩ := hkey
      subst h1
      subst h2
      rw [find_alarm_add_same]
      constructor
      · intro _
        exact Or.inr ⟨it, List.mem_cons_self it rest, rfl, rfl⟩
      · intro _
        simp
    · have hk : ¬(sev = it.sev ∧ idx = idx ∧ nm = it.name) :=
        fun hc => hkey ⟨hc.1, hc.2.2⟩
      rw [find_alarm_add_other now it.sev idx it.name it.desc it.ack st sev idx nm hk]
      constructor
      · rintro (h | ⟨it2, hm, he⟩)
        · exact Or.inl h
        · exact Or.inr ⟨it2, List.mem_cons_of_mem it hm, he⟩
      · rintro (h | ⟨it2, hm, he⟩)
        · exact Or.inl h
        · rcases List.mem_cons.1 hm with rfl | hm2
          · exact absurd ⟨he.1.symm, he.2.symm⟩ hkey
          · exact Or.inr ⟨it2, hm2, he⟩

/-- Distinct raised keys: each raised item's record ends up present with
exactly the item's description and acknowledged flag, stamped `now`. -/
theorem raiseList_fresh (now : ℚ) (idx : Int) (items : List RaiseItem) :
    ∀ (st : DashState) (it : RaiseItem),
    List.Pairwise (fun x y => ¬(x.sev = y.sev ∧ x.name = y.name)) items →
    it ∈ items →
    find_alarm it.sev idx it.name st.alarms = none →
    find_alarm it.sev idx it.name (raiseList now idx items st).alarms
      = some ⟨idx, it.name, it.desc, now, it.ack⟩ := by
  induction items with
  | nil => intro st it _ hm; simp at hm
  | cons hd rest ih =>
    intro st it hp hm hfresh
    rcases List.mem_cons.1 hm with rfl | hm2
    · simp only [raiseList]
      rw [raiseList_find_keep now idx rest _ it.sev idx it.name
          (fun it2 h2 hc => (List.pairwise_cons.1 hp).1 it2 h2 ⟨hc.1, hc.2.2⟩)]
      rw [find_alarm_add_same, hfresh]
      rfl
    · simp only [raiseList]
      have hdiff := (List.pairwise_cons.1 hp).1 it hm2
      have hk : ¬(it.sev = hd.sev ∧ idx = idx ∧ it.name = hd.name) :=
        fun hc => hdiff ⟨hc.1.symm, hc.2.2.symm⟩
      have hfresh2 : find_alarm it.sev idx it.name
          (add_alarm now hd.sev idx hd.name hd.desc hd.ack st).alarms = none := by
        rw [find_alarm_add_other now hd.sev idx hd.name hd.desc hd.ack st
          it.sev idx it.name hk]
        exact hfresh
      exact ih _ it (List.pairwise_cons.1 hp).2 hm2 hfresh2

theorem raiseList_maintenance (now : ℚ) (idx : Int) (items : List RaiseItem) :
    ∀ st : DashState, (raiseList now idx items st).maintenance = st.maintenance := by
  induction items with
  | nil => intro st; rfl
  | cons it rest ih =>
    intro st
    simp only [raiseList]
    rw [ih, add_alarm_maintenance]

/-! ### Maintenance bookkeeping through STATUS processing -/

theorem statusAlarmPortion_maintenance (now : ℚ) (idx : Int)
    (as1 : List AlarmEntry) (st : DashState) :
    (statusAlarmPortion now idx as1 st).1.maintenance = st.maintenance := by
  unfold statusAlarmPortion
  cases clearShelfAlarms idx st.alarms with
  | none => rfl
  | some al =>
    show (raiseEntryAlarms now idx as1 { st with alarms := al }).maintenance = _
    rw [raiseEntryAlarms_eq_raiseList, raiseList_maintenance]

/-- A successfully processed STATUS entry rewrites the run-hours from its
`fanHours` / `elementHours` fields (keeping the prior value when a field
is absent) and leaves the life ceilings and service stamps unchanged. -/
theorem process_entry_success_maintenance (now : ℚ) (eIdx : Nat)
    (sh : ShelfEntry) (st : DashState)
    (h : (process_entry now eIdx sh st).2 = none) :
    (process_entry now eIdx sh st).1.maintenance =
      { fan_hours := sh.fanHours.getD st.maintenance.fan_hours
        element_hours := sh.elementHours.getD st.maintenance.element_hours
        fan_life_hours := st.maintenance.fan_life_hours
        element_life_hours := st.maintenance.element_life_hours
        last_service_fan := st.maintenance.last_service_fan
        last_service_element := st.maintenance.last_service_element } := by
  simp only [process_entry] at h ⊢
  split at h
  · simp at h
  · rename_i lt hps
    rw [hps] at *
    split at h
    · simp at h
    · rename_i b hpg
      rw [hpg] at *
      split at h
      · simp at h
      · rename_i shelves1 hps2
        rw [hps2] at *
        split at h
        · exact absurd h (by simp)
        · rename_i st3 hist3
          have hm : st3.maintenance = st.maintenance := by
            split at hist3
            · rw [Prod.mk.injEq] at hist3
              rw [← hist3.1]
            · split at hist3
              · rw [Prod.mk.injEq] at hist3
                exact absurd hist3.2 (by simp)
              · rw [Prod.mk.injEq] at hist3
                rw [← hist3.1]
          rw [statusAlarmPortion_maintenance]
          simp only [hm]

/-- Folding the per-entry run-hour overwrites over a whole STATUS
message: in entry order, last-provided value wins. -/
theorem process_entries_success_maintenance (now : ℚ) (es : List ShelfEntry) :
    ∀ (eIdx : Nat) (st : DashState),
    (process_entries now eIdx es st).2 = none →
    (process_entries now eIdx es st).1.maintenance =
      { fan_hours := es.foldl (fun a sh2 => sh2.fanHours.getD a) st.maintenance.fan_hours
        element_hours := es.foldl (fun a sh2 => sh2.elementHours.getD a)
          st.maintenance.element_hours
        fan_life_hours := st.maintenance.fan_life_hours
        element_life_hours := st.maintenance.element_life_hours
        last_service_fan := st.maintenance.last_service_fan
        last_service_element := st.maintenance.last_service_element } := by
  induction es with
  | nil => intro eIdx st _; rfl
  | cons sh rest ih =>
    intro eIdx st h
    simp only [process_entries] at h ⊢
    cases hpe : process_entry now eIdx sh st with
    | mk st1 err =>
      cases err with
      | some e =>
        rw [hpe] at h
        simp at h
      | none =>
        rw [hpe] at h
        have h2 : (process_entries now (eIdx + 1) rest st1).2 = none := h
        show (process_entries now (eIdx + 1) rest st1).1.maintenance = _
        have hm := process_entry_success_maintenance now eIdx sh st (by rw [hpe])
        rw [hpe] at hm
        rw [ih (eIdx + 1) st1 h2, List.foldl_cons, List.foldl_cons, hm]

/-- Generic: a left fold of optional overwrites equals the last provided
value, scanning from the right. -/
theorem foldl_getD_eq_findSome? {α : Type} (f : α → Option ℚ) (es : List α) :
    ∀ d : ℚ, es.foldl (fun a x => (f x).getD a) d = (es.reverse.findSome? f).getD d := by
  induction es with
  | nil => intro d; rfl
  | cons x rest ih =>
    intro d
    rw [List.foldl_cons, ih, List.reverse_cons]
    have happ : ∀ (l1 l2 : List α),
        (l1 ++ l2).findSome? f
          = match l1.findSome? f with
            | some b => some b
            | none => l2.findSome? f := by
      intro l1
      induction l1 with
      | nil => intro l2; rfl
      | cons y t ih2 =>
        intro l2
        rw [List.cons_append]
        cases hf : f y with
        | some b => simp [List.findSome?, hf]
        | none => simp [List.findSome?, hf, ih2]
    rw [happ]
    cases hr : rest.reverse.findSome? f with
    | some b => rfl
    | none =>
      show (f x).getD d = ([x].findSome? f).getD d
      cases hf : f x <;> simp [List.findSome?, hf]

theorem status_resize_maintenance (count : Nat) (st : DashState) :
    (status_resize count st).maintenance = st.maintenance := by
  unfold status_resize resize_state
  split <;> rfl

/-- The whole maintenance record after a successfully processed STATUS
message: run-hours folded over the entries, ceilings from the
`maintenance` field, service stamps untouched. -/
theorem process_msg_status_success_maintenance (now : ℚ) (st : DashState)
    (shelvesOpt : Option (List ShelfEntry)) (maintOpt : Option MaintVal)
    (h : (process_msg now st (.status shelvesOpt maintOpt)).2 = none) :
    (process_msg now st (.status shelvesOpt maintOpt)).1.maintenance =
      { fan_hours := (shelvesOpt.getD []).foldl (fun a sh2 => sh2.fanHours.getD a)
          st.maintenance.fan_hours
        element_hours := (shelvesOpt.getD []).foldl (fun a sh2 => sh2.elementHours.getD a)
          st.maintenance.element_hours
        fan_life_hours :=
          (maintCeilings maintOpt st.maintenance.fan_life_hours
            st.maintenance.element_life_hours).1
        element_life_hours :=
          (maintCeilings maintOpt st.maintenance.fan_life_hours
            st.maintenance.element_life_hours).2
        last_service_fan := st.maintenance.last_service_fan
        last_service_element := st.maintenance.last_service_element } := by
  simp only [process_msg] at h ⊢
  cases hpe : process_entries now 0 (shelvesOpt.getD [])
      (status_resize (shelvesOpt.getD []).length st) with
  | mk st1 err =>
    cases err with
    | some e =>
      rw [hpe] at h
      simp at h
    | none =>
      have hm := process_entries_success_maintenance now (shelvesOpt.getD []) 0
        (status_resize (shelvesOpt.getD []).length st) (by rw [hpe])
      rw [hpe] at hm
      rw [status_resize_maintenance] at hm
      cases hmv : maintOpt.getD (.list [2000, 3000]) with
      | list xs =>
        cases xs with
        | nil =>
          show st1.maintenance = _
          rw [hm]
          simp [maintCeilings, hmv]
        | cons x0 t =>
          cases t with
          | nil =>
            show st1.maintenance = _
            rw [hm]
            simp [maintCeilings, hmv]
          | cons x1 t2 =>
            show { st1.maintenance with
                fan_life_hours := x0, element_life_hours := x1 } = _
            rw [hm]
            simp [maintCeilings, hmv]
      | nonList =>
        show st1.maintenance = _
        rw [hm]
        simp [maintCeilings, hmv]

/-! ### Log lines are write-only: every core step is congruent in the
log-erased view `coreOf`. -/

theorem eq_logs_update_of_core_eq (s t : DashState) (h : coreOf s = coreOf t) :
    t = { s with logs := t.logs } := by
  obtain ⟨n1, s1, h1, l1, a1, g1, m1, t1⟩ := s
  obtain ⟨n2, s2, h2, l2, a2, g2, m2, t2⟩ := t
  simp only [coreOf, CoreView.mk.injEq] at h
  obtain ⟨e1, e2, e3, e4, e5, e6, e7⟩ := h
  subst e1; subst e2; subst e3; subst e4; subst e5; subst e6; subst e7
  rfl

theorem add_alarm_core_congr (now : ℚ) (sev : String) (shelf : Int)
    (name desc : String) (ack : Bool) (s t : DashState)
    (h : coreOf s = coreOf t) :
    coreOf (add_alarm now sev shelf name desc ack s)
      = coreOf (add_alarm now sev shelf name desc ack t) := by
  obtain ⟨n1, s1, h1, l1, a1, g1, m1, t1⟩ := s
  obtain ⟨n2, s2, h2, l2, a2, g2, m2, t2⟩ := t
  simp only [coreOf, CoreView.mk.injEq] at h
  obtain ⟨e1, e2, e3, e4, e5, e6, e7⟩ := h
  subst e1; subst e2; subst e3; subst e4; subst e5; subst e6; subst e7
  simp only [add_alarm]
  cases find_alarm sev shelf name (dictSetdefault a1 sev []) <;> rfl

theorem raiseList_core_congr (now : ℚ) (idx : Int) (items : List RaiseItem) :
    ∀ (s t : DashState), coreOf s = coreOf t →
    coreOf (raiseList now idx items s) = coreOf (raiseList now idx items t) := by
  induction items with
  | nil => intro s t h; exact h
  | cons it rest ih =>
    intro s t h
    simp only [raiseList]
    exact ih _ _ (add_alarm_core_congr now it.sev idx it.name it.desc it.ack s t h)

theorem raiseEntryAlarms_core_congr (now : ℚ) (idx : Int)
    (as1 : List AlarmEntry) (s t : DashState) (h : coreOf s = coreOf t) :
    coreOf (raiseEntryAlarms now idx as1 s) = coreOf (raiseEntryAlarms now idx as1 t) := by
  rw [raiseEntryAlarms_eq_raiseList, raiseEntryAlarms_eq_raiseList]
  exact raiseList_core_congr now idx (statusItems as1) s t h

theorem raiseSnapshotAlarms_core_congr (now : ℚ) (i : Int)
    (as1 : List AlarmEntry) :
    ∀ (s t : DashState), coreOf s = coreOf t →
    coreOf (raiseSnapshotAlarms now i as1 s).1 = coreOf (raiseSnapshotAlarms now i as1 t).1
      ∧ (raiseSnapshotAlarms now i as1 s).2 = (raiseSnapshotAlarms now i as1 t).2 := by
  induction as1 with
  | nil => intro s t h; exact ⟨h, rfl⟩
  | cons a rest ih =>
    intro s t h
    simp only [raiseSnapshotAlarms]
    by_cases hact : a.active.getD false
    · rw [if_pos hact, if_pos hact]
      cases a.name with
      | none => exact ⟨h, rfl⟩
      | some nm =>
        exact ih _ _ (add_alarm_core_congr now (pyUpper (pyOrStr a.severity "ERROR"))
          i nm (a.desc.getD nm) (a.ack.getD false) s t h)
    · rw [if_neg hact, if_neg hact]
      exact ih s t h

theorem statusAlarmPortion_core_congr (now : ℚ) (idx : Int)
    (as1 : List AlarmEntry) (s t : DashState) (h : coreOf s = coreOf t) :
    coreOf (statusAlarmPortion now idx as1 s).1 = coreOf (statusAlarmPortion now idx as1 t).1
      ∧ (statusAlarmPortion now idx as1 s).2 = (statusAlarmPortion now idx as1 t).2 := by
  obtain ⟨n1, s1, h1, l1, a1, g1, m1, t1⟩ := s
  obtain ⟨n2, s2, h2, l2, a2, g2, m2, t2⟩ := t
  simp only [coreOf, CoreView.mk.injEq] at h
  obtain ⟨e1, e2, e3, e4, e5, e6, e7⟩ := h
  subst e1; subst e2; subst e3; subst e4; subst e5; subst e6; subst e7
  unfold statusAlarmPortion
  cases clearShelfAlarms idx a1 with
  | none => exact ⟨rfl, rfl⟩
  | some al =>
    refine ⟨?_, rfl⟩
    exact raiseEntryAlarms_core_congr now idx as1 _ _ rfl

theorem process_entry_core_congr (now : ℚ) (eIdx : Nat) (sh : ShelfEntry)
    (s t : DashState) (h : coreOf s = coreOf t) :
    coreOf (process_entry now eIdx sh s).1 = coreOf (process_entry now eIdx sh t).1
      ∧ (process_entry now eIdx sh s).2 = (process_entry now eIdx sh t).2 := by
  obtain ⟨n1, s1, h1, l1, a1, g1, m1, t1⟩ := s
  obtain ⟨n2, s2, h2, l2, a2, g2, m2, t2⟩ := t
  simp only [coreOf, CoreView.mk.injEq] at h
  obtain ⟨e1, e2, e3, e4, e5, e6, e7⟩ := h
  subst e1; subst e2; subst e3; subst e4; subst e5; subst e6; subst e7
  simp only [process_entry]
  cases hx1 : pySet l1 (sh.shelf.getD (Int.ofNat eIdx) - 1) sh.temp with
  | none => exact ⟨rfl, rfl⟩
  | some lt =>
    cases hx2 : pyGet s1 (sh.shelf.getD (Int.ofNat eIdx) - 1) with
    | none => exact ⟨rfl, rfl⟩
    | some b =>
      cases hx3 : pySet s1 (sh.shelf.getD (Int.ofNat eIdx) - 1)
          { is_on := sh.systemOn.getD true,
            setpoint := (sh.setpoint.getD [75, 77, 73]).getD 0 75,
            upper := (sh.setpoint.getD [75, 77, 73]).getD 1
              ((sh.setpoint.getD [75, 77, 73]).getD 0 75 + 2),
            lower := (sh.setpoint.getD [75, 77, 73]).getD 2
              ((sh.setpoint.getD [75, 77, 73]).getD 0 75 - 2) } with
      | none => exact ⟨rfl, rfl⟩
      | some shelves1 =>
        cases hx4 : sh.temp with
        | none => exact statusAlarmPortion_core_congr now _ _ _ _ rfl
        | some tv =>
          cases hx5 : natIdx h1.length (sh.shelf.getD (Int.ofNat eIdx) - 1) with
          | none => exact ⟨rfl, rfl⟩
          | some k => exact statusAlarmPortion_core_congr now _ _ _ _ rfl

theorem process_entries_core_congr (now : ℚ) (es : List ShelfEntry) :
    ∀ (eIdx : Nat) (s t : DashState), coreOf s = coreOf t →
    coreOf (process_entries now eIdx es s).1 = coreOf (process_entries now eIdx es t).1
      ∧ (process_entries now eIdx es s).2 = (process_entries now eIdx es t).2 := by
  induction es with
  | nil => intro eIdx s t h; exact ⟨h, rfl⟩
  | cons sh rest ih =>
    intro eIdx s t h
    simp only [process_entries]
    obtain ⟨hc, he⟩ := process_entry_core_congr now eIdx sh s t h
    cases hA : process_entry now eIdx sh s with
    | mk sa ea =>
      cases hB : process_entry now eIdx sh t with
      | mk sb eb =>
        rw [hA, hB] at hc
        rw [hA, hB] at he
        cases ea with
        | some e =>
          cases he
          exact ⟨hc, rfl⟩
        | none =>
          cases he
          exact ih (eIdx + 1) sa sb hc

theorem status_resize_core_congr (count : Nat) (s t : DashState)
    (h : coreOf s = coreOf t) :
    coreOf (status_resize count s) = coreOf (status_resize count t) := by
  obtain ⟨n1, s1, h1, l1, a1, g1, m1, t1⟩ := s
  obtain ⟨n2, s2, h2, l2, a2, g2, m2, t2⟩ := t
  simp only [coreOf, CoreView.mk.injEq] at h
  obtain ⟨e1, e2, e3, e4, e5, e6, e7⟩ := h
  subst e1; subst e2; subst e3; subst e4; subst e5; subst e6; subst e7
  unfold status_resize resize_state
  split <;> rfl

theorem core_congr_update_last (sa sb : DashState) (h : coreOf sa = coreOf sb)
    (now : ℚ) :
    coreOf { sa with last_update_ts := now } = coreOf { sb with last_update_ts := now } := by
  obtain ⟨n1, s1, h1, l1, a1, g1, m1, t1⟩ := sa
  obtain ⟨n2, s2, h2, l2, a2, g2, m2, t2⟩ := sb
  simp only [coreOf, CoreView.mk.injEq] at h
  obtain ⟨e1, e2, e3, e4, e5, e6, e7⟩ := h
  subst e1; subst e2; subst e3; subst e4; subst e5; subst e6; subst e7
  rfl

theorem core_congr_update_ceilings (sa sb : DashState) (h : coreOf sa = coreOf sb)
    (x0 x1 now : ℚ) :
    coreOf { sa with
        maintenance := { sa.maintenance with
          fan_life_hours := x0, element_life_hours := x1 }
        last_update_ts := now }
      = coreOf { sb with
          maintenance := { sb.maintenance with
            fan_life_hours := x0, element_life_hours := x1 }
          last_update_ts := now } := by
  obtain ⟨n1, s1, h1, l1, a1, g1, m1, t1⟩ := sa
  obtain ⟨n2, s2, h2, l2, a2, g2, m2, t2⟩ := sb
  simp only [coreOf, CoreView.mk.injEq] at h
  obtain ⟨e1, e2, e3, e4, e5, e6, e7⟩ := h
  subst e1; subst e2; subst e3; subst e4; subst e5; subst e6; subst e7
  rfl

/-- `process_msg` never reads the log buffer: states agreeing outside
`logs` are sent to states agreeing outside `logs`, with the same fault. -/
theorem process_msg_core_congr (now : ℚ) (msg : Msg) (s t : DashState)
    (h : coreOf s = coreOf t) :
    coreOf (process_msg now s msg).1 = coreOf (process_msg now t msg).1
      ∧ (process_msg now s msg).2 = (process_msg now t msg).2 := by
  cases msg with
  | status shelvesOpt maintOpt =>
    simp only [process_msg]
    obtain ⟨hc, he⟩ := process_entries_core_congr now (shelvesOpt.getD []) 0
      (status_resize (shelvesOpt.getD []).length s)
      (status_resize (shelvesOpt.getD []).length t)
      (status_resize_core_congr (shelvesOpt.getD []).length s t h)
    cases hA : process_entries now 0 (shelvesOpt.getD [])
        (status_resize (shelvesOpt.getD []).length s) with
    | mk sa ea =>
      cases hB : process_entries now 0 (shelvesOpt.getD [])
          (status_resize (shelvesOpt.getD []).length t) with
      | mk sb eb =>
        rw [hA, hB] at hc
        rw [hA, hB] at he
        cases ea with
        | some e =>
          cases he
          exact ⟨hc, rfl⟩
        | none =>
          cases he
          cases hmv : maintOpt.getD (.list [2000, 3000]) with
          | list xs =>
            cases xs with
            | nil => exact ⟨core_congr_update_last sa sb hc now, rfl⟩
            | cons x0 txs =>
              cases txs with
              | nil => exact ⟨core_congr_update_last sa sb hc now, rfl⟩
              | cons x1 t2 =>
                exact ⟨core_congr_update_ceilings sa sb hc x0 x1 now, rfl⟩
          | nonList => exact ⟨core_congr_update_last sa sb hc now, rfl⟩
  | liveTemp shelfOpt valOpt =>
    obtain ⟨n1, s1, h1, l1, a1, g1, m1, t1⟩ := s
    obtain ⟨n2, s2, h2, l2, a2, g2, m2, t2⟩ := t
    simp only [coreOf, CoreView.mk.injEq] at h
    obtain ⟨e1, e2, e3, e4, e5, e6, e7⟩ := h
    subst e1; subst e2; subst e3; subst e4; subst e5; subst e6; subst e7
    simp only [process_msg]
    cases pySet l1 (shelfOpt.getD 1 - 1) valOpt with
    | none => exact ⟨rfl, rfl⟩
    | some lt =>
      cases natIdx h1.length (shelfOpt.getD 1 - 1) with
      | none => exact ⟨rfl, rfl⟩
      | some k => exact ⟨rfl, rfl⟩
  | alarmState shelfOpt alarmsOpt =>
    obtain ⟨n1, s1, h1, l1, a1, g1, m1, t1⟩ := s
    obtain ⟨n2, s2, h2, l2, a2, g2, m2, t2⟩ := t
    simp only [coreOf, CoreView.mk.injEq] at h
    obtain ⟨e1, e2, e3, e4, e5, e6, e7⟩ := h
    subst e1; subst e2; subst e3; subst e4; subst e5; subst e6; subst e7
    simp only [process_msg]
    cases clearShelfAlarms (shelfOpt.getD 1 - 1) a1 with
    | none => exact ⟨rfl, rfl⟩
    | some al =>
      dsimp only
      obtain ⟨hc, he⟩ := raiseSnapshotAlarms_core_congr now (shelfOpt.getD 1 - 1)
        (alarmsOpt.getD [])
        ⟨n1, s1, h1, l1, al, g1, m1, t1⟩ ⟨n1, s1, h1, l1, al, g2, m1, t1⟩ rfl
      cases hA : raiseSnapshotAlarms now (shelfOpt.getD 1 - 1) (alarmsOpt.getD [])
          ⟨n1, s1, h1, l1, al, g1, m1, t1⟩ with
      | mk sa ea =>
        cases hB : raiseSnapshotAlarms now (shelfOpt.getD 1 - 1) (alarmsOpt.getD [])
            ⟨n1, s1, h1, l1, al, g2, m1, t1⟩ with
        | mk sb eb =>
          rw [hA, hB] at hc
          rw [hA, hB] at he
          cases ea with
          | some e =>
            cases he
            exact ⟨hc, rfl⟩
          | none =>
            cases he
            exact ⟨core_congr_update_last sa sb hc now, rfl⟩
  | logMsg tsOpt levelOpt msgOpt =>
    obtain ⟨n1, s1, h1, l1, a1, g1, m1, t1⟩ := s
    obtain ⟨n2, s2, h2, l2, a2, g2, m2, t2⟩ := t
    simp only [coreOf, CoreView.mk.injEq] at h
    obtain ⟨e1, e2, e3, e4, e5, e6, e7⟩ := h
    subst e1; subst e2; subst e3; subst e4; subst e5; subst e6; subst e7
    exact ⟨rfl, rfl⟩
  | other raw =>
    exact ⟨h, rfl⟩
  | nonDict =>
    exact ⟨h, rfl⟩

theorem process_batch_core_congr (now : ℚ) (msgs : List Msg) :
    ∀ (s t : DashState), coreOf s = coreOf t →
    coreOf (process_batch now msgs s).1 = coreOf (process_batch now msgs t).1
      ∧ (process_batch now msgs s).2 = (process_batch now msgs t).2 := by
  induction msgs with
  | nil => intro s t h; exact ⟨h, rfl⟩
  | cons m rest ih =>
    intro s t h
    simp only [process_batch]
    obtain ⟨hc, he⟩ := process_msg_core_congr now m s t h
    cases hA : process_msg now s m with
    | mk sa ea =>
      cases hB : process_msg now t m with
      | mk sb eb =>
        rw [hA, hB] at hc
        rw [hA, hB] at he
        cases ea with
        | some e =>
          cases he
          exact ⟨hc, rfl⟩
        | none =>
          cases he
          exact ih sa sb hc

/-- `read_all` only appends log lines: the decoded message list is the
`decodedMsgs` projection of the lines, and every non-log field of the
state is untouched. -/
theorem read_all_core (now : ℚ) (lines : List RawLine) (st : DashState) :
    coreOf (read_all now lines st).2 = coreOf st
      ∧ (read_all now lines st).1 = decodedMsgs lines := by
  have aux : ∀ (ls : List RawLine) (acc : List Msg × DashState),
      coreOf (ls.foldl
        (fun acc ln =>
          match ln with
          | .empty => acc
          | .ok m => (acc.1 ++ [m], acc.2)
          | .bad s =>
            let line := "[" ++ tsNow now ++ "] RAW: " ++ s
            (acc.1, { acc.2 with logs := dequeAppend LOG_LIMIT acc.2.logs line }))
        acc).2 = coreOf acc.2
      ∧ (ls.foldl
          (fun acc ln =>
            match ln with
            | .empty => acc
            | .ok m => (acc.1 ++ [m], acc.2)
            | .bad s =>
              let line := "[" ++ tsNow now ++ "] RAW: " ++ s
              (acc.1, { acc.2 with logs := dequeAppend LOG_LIMIT acc.2.logs line }))
          acc).1
        = acc.1 ++ ls.filterMap (fun ln =>
            match ln with
            | .ok m => some m
            | _ => none) := by
    intro ls
    induction ls with
    | nil => intro acc; simp
    | cons ln rest ih =>
      intro acc
      rw [List.foldl_cons, List.filterMap_cons]
      cases ln with
      | empty =>
        obtain ⟨ha, hb⟩ := ih acc
        refine ⟨ha, ?_⟩
        rw [hb]
      | ok m =>
        obtain ⟨ha, hb⟩ := ih (acc.1 ++ [m], acc.2)
        refine ⟨ha, ?_⟩
        rw [hb]
        simp
      | bad s2 =>
        have hline := ih (acc.1,
          { acc.2 with logs := dequeAppend LOG_LIMIT acc.2.logs ("[" ++ tsNow now ++ "] RAW: " ++ s2) })
        refine ⟨?_, hline.2⟩
        rw [hline.1]
        exact rfl
  exact aux (lines.take 200) ([], st)

/-! ### Unconditional `clear_alarm` facts and the demo heuristic -/

theorem find_filter_shelf_none (l : List AlarmRec) (i : Int) (nm : String) :
    (l.filter fun a => !(a.shelf == i)).find? (fun a => a.shelf == i && a.name == nm)
      = none := by
  refine List.find?_eq_none.2 fun x hx => ?_
  have := (List.mem_filter.1 hx).2
  simp only [Bool.not_eq_eq_eq_not, Bool.not_true] at this
  simp [this]

/-- After `clear_alarm(sev, shelf, name)` — whether it cleared, no-opped,
or raised `KeyError` — no record with that key is present. -/
theorem clear_alarm_absent (now : ℚ) (sev : String) (shelf : Int)
    (name : String) (st : DashState) :
    find_alarm sev shelf name ((clear_alarm now sev shelf name st).1).alarms = none := by
  cases hg : dictGet? st.alarms sev with
  | none =>
    rw [clear_alarm_keyerror now sev shelf name st hg]
    rw [find_alarm_eq_bucket]
    unfold bucket
    rw [hg]
    rfl
  | some arr =>
    exact clear_alarm_success_absent now sev shelf name st
      (clear_alarm_ok now sev shelf name st arr hg)

/-- `clear_alarm` touches only its own severity bucket. -/
theorem clear_alarm_other (now : ℚ) (sev : String) (shelf : Int) (name : String)
    (st : DashState) (q : String) (hq : q ≠ sev) :
    bucket ((clear_alarm now sev shelf name st).1).alarms q = bucket st.alarms q := by
  cases hg : dictGet? st.alarms sev with
  | none => rw [clear_alarm_keyerror now sev shelf name st hg]
  | some arr =>
    simp only [clear_alarm, hg]
    by_cases hany : arr.any (fun a => a.shelf == shelf && a.name == name)
    · rw [if_pos hany]
      show bucket (dictSet st.alarms sev _) q = _
      rw [bucket_dictSet, if_neg (fun hh => hq hh.symm)]
    · rw [if_neg hany]

/-- The demo threshold heuristic can never leave both a CRITICAL
"OVERHEAT" and an ERROR "OVERTEMP" record for the shelf it ran on. -/
theorem demo_heuristic_exclusion (now cur upper : ℚ) (i : Int) (st : DashState) :
    ((find_alarm "CRITICAL" i "OVERHEAT"
          (demo_alarm_heuristic now cur upper i st).1.alarms).isSome
      && (find_alarm "ERROR" i "OVERTEMP"
          (demo_alarm_heuristic now cur upper i st).1.alarms).isSome) = false := by
  unfold demo_alarm_heuristic
  by_cases h1 : cur > upper + 6
  · rw [if_pos h1, clear_alarm_absent]
    simp
  · rw [if_neg h1]
    by_cases h2 : cur > upper + 3
    · rw [if_pos h2, clear_alarm_absent]
      simp
    · rw [if_neg h2]
      cases hres : clear_alarm now "ERROR" i "OVERTEMP" st with
      | mk st1 err =>
        cases err with
        | some e =>
          have habs := clear_alarm_absent now "ERROR" i "OVERTEMP" st
          rw [hres] at habs
          simp only at habs
          rw [habs]
          simp
        | none =>
          rw [clear_alarm_absent]
          simp

/-- The per-shelf demo tick either reaches the heuristic (so the pair is
excluded) or faults before touching the registry at all. -/
theorem demoShelfTick_exclusion (now delta : ℚ) (i : Nat) (st : DashState) :
    ((find_alarm "CRITICAL" (Int.ofNat i) "OVERHEAT"
          (demoShelfTick now delta i st).1.alarms).isSome
      && (find_alarm "ERROR" (Int.ofNat i) "OVERTEMP"
          (demoShelfTick now delta i st).1.alarms).isSome) = false
    ∨ (demoShelfTick now delta i st).1.alarms = st.alarms := by
  simp only [demoShelfTick]
  repeat' split
  all_goals first
    | exact Or.inr rfl
    | exact Or.inl (demo_heuristic_exclusion now _ _ _ _)

/-! ### Replace-for-shelf: the combined clear-then-raise step -/

theorem snapItems_mem (as1 : List AlarmEntry) (it : RaiseItem) :
    it ∈ snapItems as1
      ↔ ∃ a ∈ as1, a.active.getD false = true ∧ ∃ nm, a.name = some nm
          ∧ it = ⟨pyUpper (pyOrStr a.severity "ERROR"), nm, a.desc.getD nm,
              a.ack.getD false⟩ := by
  unfold snapItems
  rw [List.mem_filterMap]
  constructor
  · rintro ⟨a, ha, hf⟩
    by_cases hact : a.active.getD false
    · rw [if_pos hact] at hf
      cases hnm : a.name with
      | none =>
        rw [hnm] at hf
        exact Option.noConfusion hf
      | some nm =>
        rw [hnm] at hf
        have hf2 : some (⟨pyUpper (pyOrStr a.severity "ERROR"), nm, a.desc.getD nm,
            a.ack.getD false⟩ : RaiseItem) = some it := hf
        exact ⟨a, ha, hact, nm, hnm, (Option.some.inj hf2).symm⟩
    · rw [if_neg hact] at hf
      exact Option.noConfusion hf
  · rintro ⟨a, ha, hact, nm, hnm, rfl⟩
    refine ⟨a, ha, ?_⟩
    rw [if_pos hact, hnm]
    rfl

theorem statusItems_mem (as1 : List AlarmEntry) (it : RaiseItem) :
    it ∈ statusItems as1
      ↔ ∃ a ∈ as1, a.active.getD false = true
          ∧ it = ⟨pyUpper (a.severity.getD "ERROR"), a.name.getD "ALARM",
              a.desc.getD (a.name.getD "ALARM"), a.ack.getD false⟩ := by
  unfold statusItems
  rw [List.mem_filterMap]
  constructor
  · rintro ⟨a, ha, hf⟩
    by_cases hact : a.active.getD false
    · rw [if_pos hact] at hf
      simp only [Option.some.injEq] at hf
      exact ⟨a, ha, hact, hf.symm⟩
    · rw [if_neg hact] at hf
      exact Option.noConfusion hf
  · rintro ⟨a, ha, hact, rfl⟩
    refine ⟨a, ha, ?_⟩
    rw [if_pos hact]

/-- What the cleared dict looks like, bucket by bucket. -/
theorem bucket_after_clearShelf (i : Int) (al al2 : AlarmDict)
    (c e : List AlarmRec)
    (hC : dictGet? al "CRITICAL" = some c) (hE : dictGet? al "ERROR" = some e)
    (hal2 : clearShelfAlarms i al = some al2) :
    bucket al2 "CRITICAL" = c.filter (fun a => !(a.shelf == i))
      ∧ bucket al2 "ERROR" = e.filter (fun a => !(a.shelf == i))
      ∧ ∀ q, q ≠ "CRITICAL" → q ≠ "ERROR" → bucket al2 q = bucket al q := by
  rw [clearShelfAlarms_eq i al c e hC hE] at hal2
  cases hal2
  refine ⟨?_, ?_, ?_⟩
  · rw [bucket_dictSet]
    rw [if_neg (by decide)]
    rw [bucket_dictSet, if_pos rfl]
  · rw [bucket_dictSet, if_pos rfl]
  · intro q hq1 hq2
    rw [bucket_dictSet, if_neg (fun hh => hq2 hh.symm),
      bucket_dictSet, if_neg (fun hh => hq1 hh.symm)]

/-- No record for shelf `i` survives the clear in a covered bucket. -/
theorem find_after_clearShelf (i : Int) (al al2 : AlarmDict)
    (c e : List AlarmRec)
    (hC : dictGet? al "CRITICAL" = some c) (hE : dictGet? al "ERROR" = some e)
    (hal2 : clearShelfAlarms i al = some al2)
    (sev : String) (hsev : sev = "CRITICAL" ∨ sev = "ERROR") (nm : String) :
    find_alarm sev i nm al2 = none := by
  obtain ⟨hc2, he2, _⟩ := bucket_after_clearShelf i al al2 c e hC hE hal2
  rw [find_alarm_eq_bucket]
  cases hsev with
  | inl hh => rw [hh, hc2]; exact find_filter_shelf_none c i nm
  | inr hh => rw [hh, he2]; exact find_filter_shelf_none e i nm

/-- The three contract clauses of `replace_for_shelf`, for the shared
clear-then-fold-of-raises shape both message paths compile to. -/
theorem replace_for_shelf_spec (now : ℚ) (i : Int) (items : List RaiseItem)
    (st : DashState) (c e : List AlarmRec)
    (hC : dictGet? st.alarms "CRITICAL" = some c)
    (hE : dictGet? st.alarms "ERROR" = some e)
    (hsev : ∀ it ∈ items, it.sev = "CRITICAL" ∨ it.sev = "ERROR")
    (hdist : List.Pairwise (fun x y => ¬(x.sev = y.sev ∧ x.name = y.name)) items)
    (al2 : AlarmDict)
    (hal2 : clearShelfAlarms i st.alarms = some al2) :
    (∀ q, (bucket (raiseList now i items { st with alarms := al2 }).alarms q).filter
          (fun a => !(a.shelf == i))
        = (bucket st.alarms q).filter (fun a => !(a.shelf == i)))
    ∧ (∀ sev nm, (sev = "CRITICAL" ∨ sev = "ERROR") →
        (find_alarm sev i nm (raiseList now i items { st with alarms := al2 }).alarms).isSome
            = true →
        ∃ it ∈ items, it.sev = sev ∧ it.name = nm)
    ∧ (∀ it ∈ items,
        find_alarm it.sev i it.name
            (raiseList now i items { st with alarms := al2 }).alarms
          = some ⟨i, it.name, it.desc, now, it.ack⟩) := by
  obtain ⟨hc2, he2, hother⟩ := bucket_after_clearShelf i st.alarms al2 c e hC hE hal2
  have hal2b : ({ st with alarms := al2 } : DashState).alarms = al2 := rfl
  refine ⟨?_, ?_, ?_⟩
  · intro q
    rw [raiseList_filter_bucket, hal2b]
    by_cases hq1 : q = "CRITICAL"
    · subst hq1
      have hbc : bucket st.alarms "CRITICAL" = c := by
        unfold bucket
        rw [hC]
        rfl
      rw [hc2, hbc, List.filter_filter]
      simp only [Bool.and_self]
    · by_cases hq2 : q = "ERROR"
      · subst hq2
        have hbe : bucket st.alarms "ERROR" = e := by
          unfold bucket
          rw [hE]
          rfl
        rw [he2, hbe, List.filter_filter]
        simp only [Bool.and_self]
      · rw [hother q hq1 hq2]
  · intro sev nm hsev2 hfound
    rw [raiseList_find_mem] at hfound
    cases hfound with
    | inl hin =>
      exfalso
      rw [find_alarm_eq_bucket, hal2b] at hin
      cases hsev2 with
      | inl hh =>
        rw [hh, hc2] at hin
        rw [find_filter_shelf_none c i nm] at hin
        simp at hin
      | inr hh =>
        rw [hh, he2] at hin
        rw [find_filter_shelf_none e i nm] at hin
        simp at hin
    | inr hex => exact hex
  · intro it hit
    refine raiseList_fresh now i items _ it hdist hit ?_
    rw [hal2b]
    exact find_after_clearShelf i st.alarms al2 c e hC hE hal2 it.sev (hsev it hit) it.name

/-! ### Batch-skip and out-of-range helpers -/

theorem process_batch_skip_other (now : ℚ) (s2 : String) :
    ∀ (xs ys : List Msg) (st : DashState),
    process_batch now (xs ++ Msg.other s2 :: ys) st = process_batch now (xs ++ ys) st := by
  intro xs
  induction xs with
  | nil =>
    intro ys st
    rfl
  | cons m rest ih =>
    intro ys st
    rw [List.cons_append, List.cons_append]
    simp only [process_batch]
    cases process_msg now st m with
    | mk s1 e1 =>
      cases e1 with
      | some e => rfl
      | none => exact ih ys s1

theorem decodedMsgs_skip_bad (ls1 ls2 : List RawLine) (s2 : String)
    (h : (ls1 ++ RawLine.bad s2 :: ls2).length ≤ 200) :
    decodedMsgs (ls1 ++ RawLine.bad s2 :: ls2) = decodedMsgs (ls1 ++ ls2) := by
  have h2 : (ls1 ++ ls2).length ≤ 200 := by
    rw [List.length_append] at h ⊢
    simp only [List.length_cons] at h
    omega
  unfold decodedMsgs
  rw [List.take_of_length_le h, List.take_of_length_le h2,
    List.filterMap_append, List.filterMap_append]
  rfl

theorem read_from_pi_skip_bad (now : ℚ) (ls1 ls2 : List RawLine) (s2 : String)
    (st : DashState) (h : (ls1 ++ RawLine.bad s2 :: ls2).length ≤ 200) :
    coreOf (read_from_pi now (ls1 ++ RawLine.bad s2 :: ls2) st).1
        = coreOf (read_from_pi now (ls1 ++ ls2) st).1
      ∧ (read_from_pi now (ls1 ++ RawLine.bad s2 :: ls2) st).2
        = (read_from_pi now (ls1 ++ ls2) st).2 := by
  obtain ⟨hcore1, hmsgs1⟩ := read_all_core now (ls1 ++ RawLine.bad s2 :: ls2) st
  obtain ⟨hcore2, hmsgs2⟩ := read_all_core now (ls1 ++ ls2) st
  simp only [read_from_pi]
  rw [hmsgs1, hmsgs2, decodedMsgs_skip_bad ls1 ls2 s2 h]
  exact process_batch_core_congr now (decodedMsgs (ls1 ++ ls2)) _ _ (hcore1.trans hcore2.symm)

theorem pyIdx_oob (len : Nat) (i : Int)
    (h : (len : Int) ≤ i ∨ i < -(len : Int)) : pyIdx len i = none := by
  unfold pyIdx
  rcases h with h | h
  · rw [if_pos (by omega : (0:Int) ≤ i), if_neg (by omega : ¬ i < (len : Int))]
  · rw [if_neg (by omega : ¬ (0:Int) ≤ i), if_neg (by omega : ¬ -(len:Int) ≤ i)]

theorem pyIdx_neg_one (len : Nat) (h : 0 < len) :
    pyIdx len (-1) = some (len - 1) := by
  unfold pyIdx
  rw [if_neg (by omega : ¬ (0:Int) ≤ -1), if_pos (by omega : -(len:Int) ≤ -1)]
  congr 1
  omega

/-- LIVE_TEMP with an identity resolving outside the latest-temperature
list: `IndexError` before any mutation. -/
theorem process_msg_liveTemp_oob (now : ℚ) (st : DashState) (si : Int)
    (v : Option ℚ) (h : pyIdx st.latest_temp.length (si - 1) = none) :
    process_msg now st (.liveTemp (some si) v) = (st, some "IndexError: latest_temp") := by
  simp only [process_msg, Option.getD_some]
  have hps : pySet st.latest_temp (si - 1) v = none := by
    unfold pySet
    rw [h]
    rfl
  rw [hps]

/-- A STATUS entry with an identity resolving outside the
latest-temperature list: `IndexError` with the entry's mutations skipped. -/
theorem process_entry_oob (now : ℚ) (eIdx : Nat) (sh : ShelfEntry)
    (st : DashState)
    (h : pyIdx st.latest_temp.length (sh.shelf.getD (Int.ofNat eIdx) - 1) = none) :
    process_entry now eIdx sh st = (st, some "IndexError: latest_temp") := by
  simp only [process_entry]
  have hps : pySet st.latest_temp (sh.shelf.getD (Int.ofNat eIdx) - 1) sh.temp = none := by
    unfold pySet
    rw [h]
    rfl
  rw [hps]

/-- LIVE_TEMP with identity `0`: Python's negative indexing writes the
LAST shelf's latest temperature, then the history dict lookup raises
`KeyError`. -/
theorem process_msg_liveTemp_zero (now : ℚ) (st : DashState) (v : Option ℚ)
    (h : 0 < st.latest_temp.length) :
    process_msg now st (.liveTemp (some 0) v)
      = ({ st with latest_temp := st.latest_temp.set (st.latest_temp.length - 1) v },
         some "KeyError: hist") := by
  simp only [process_msg, Option.getD_some]
  have hps : pySet st.latest_temp ((0:Int) - 1) v
      = some (st.latest_temp.set (st.latest_temp.length - 1) v) := by
    unfold pySet
    have hm1 : (0:Int) - 1 = -1 := by decide
    rw [hm1, pyIdx_neg_one st.latest_temp.length h]
    rfl
  rw [hps]
  have hni : natIdx st.hist.length ((0:Int) - 1) = none := by
    unfold natIdx
    rw [if_neg (by omega)]
  rw [hni]

/-! ## Claim theorems -/

/-- C1 (amended): a STATUS message whose shelf count differs from the
store's current count resets every shelf's bounds to defaults and empties
all history and latest-temperature data, but the resize itself leaves the
alarm registry (and log) untouched; alarms disappear only through the
per-entry replace step, so in the 2→3 example with entries for shelves
1..3 the store ends with 3 default shelves and no pre-existing alarm for
old shelves 0 or 1. -/
theorem c1_theorem :
    (∀ (count : Nat) (st : DashState), count ≠ st.num_shelves →
      status_resize count st = resize_state count st
        ∧ (resize_state count st).num_shelves = count
        ∧ (resize_state count st).shelves = List.replicate count defaultShelf
        ∧ (resize_state count st).hist = List.replicate count []
        ∧ (resize_state count st).latest_temp = List.replicate count none
        ∧ (resize_state count st).alarms = st.alarms
        ∧ (resize_state count st).logs = st.logs)
    ∧ ((process_msg 0 growStart
          (.status (some [entryOnly 1, entryOnly 2, entryOnly 3]) none)).2 = none
      ∧ (process_msg 0 growStart
          (.status (some [entryOnly 1, entryOnly 2, entryOnly 3]) none)).1.num_shelves = 3
      ∧ (process_msg 0 growStart
          (.status (some [entryOnly 1, entryOnly 2, entryOnly 3]) none)).1.shelves
          = List.replicate 3 defaultShelf
      ∧ bucket (process_msg 0 growStart
          (.status (some [entryOnly 1, entryOnly 2, entryOnly 3]) none)).1.alarms
          "CRITICAL" = []
      ∧ bucket (process_msg 0 growStart
          (.status (some [entryOnly 1, entryOnly 2, entryOnly 3]) none)).1.alarms
          "ERROR" = []) := by
  constructor
  · intro count st hne
    refine ⟨?_, rfl, rfl, rfl, rfl, rfl, rfl⟩
    unfold status_resize
    rw [if_pos hne]
  · exact ⟨rfl, rfl, rfl, rfl, rfl⟩

theorem c1_witness :
    status_resize 3 initState = resize_state 3 initState
      ∧ (resize_state 3 initState).alarms = initState.alarms
      ∧ (resize_state 3 initState).shelves = List.replicate 3 defaultShelf := by
  have h := c1_theorem.1 3 initState (by decide)
  exact ⟨h.1, h.2.2.2.2.2.1, h.2.2.1⟩

/-- C1 counterexample: shrinking from 3 shelves to 2 leaves the CRITICAL
alarm for old shelf index 2 in the registry, so the resize does NOT drop
per-shelf alarm records for indices beyond the new count. -/
theorem c1_counterexample :
    shrinkStart.num_shelves = 3
      ∧ (find_alarm "CRITICAL" 2 "STUCK" shrinkStart.alarms).isSome = true
      ∧ (process_msg 0 shrinkStart (.status (some [entryOnly 1, entryOnly 2]) none)).2 = none
      ∧ (process_msg 0 shrinkStart
          (.status (some [entryOnly 1, entryOnly 2]) none)).1.num_shelves = 2
      ∧ (find_alarm "CRITICAL" 2 "STUCK"
          (process_msg 0 shrinkStart
            (.status (some [entryOnly 1, entryOnly 2]) none)).1.alarms).isSome = true := by
  exact ⟨rfl, rfl, rfl, rfl, rfl⟩

/-- C2 (amended): a telemetry identity that resolves outside the
latest-temperature list is NOT skipped-and-logged: the write raises an
unhandled IndexError that aborts the message (and the rest of the batch)
with the state unchanged up to that point, and identity 0 wraps via
Python negative indexing onto the LAST shelf's latest temperature before
raising KeyError on the history dict. -/
theorem c2_theorem :
    (∀ (now : ℚ) (st : DashState) (si : Int) (v : Option ℚ),
      pyIdx st.latest_temp.length (si - 1) = none →
      process_msg now st (.liveTemp (some si) v) = (st, some "IndexError: latest_temp"))
    ∧ (∀ (now : ℚ) (eIdx : Nat) (sh : ShelfEntry) (st : DashState),
      pyIdx st.latest_temp.length (sh.shelf.getD (Int.ofNat eIdx) - 1) = none →
      process_entry now eIdx sh st = (st, some "IndexError: latest_temp"))
    ∧ (∀ (now : ℚ) (st : DashState) (v : Option ℚ),
      0 < st.latest_temp.length →
      process_msg now st (.liveTemp (some 0) v)
        = ({ st with latest_temp := st.latest_temp.set (st.latest_temp.length - 1) v },
           some "KeyError: hist")) :=
  ⟨process_msg_liveTemp_oob, process_entry_oob, process_msg_liveTemp_zero⟩

theorem c2_witness :
    process_msg 0 initState (.liveTemp (some 5) (some 50))
        = (initState, some "IndexError: latest_temp")
      ∧ process_entry 0 0 (entryOnly 5) initState
        = (initState, some "IndexError: latest_temp")
      ∧ process_msg 0 initState (.liveTemp (some 0) (some 50))
        = ({ initState with latest_temp := [none, some 50] }, some "KeyError: hist") := by
  refine ⟨c2_theorem.1 0 initState 5 (some 50) (by decide),
    c2_theorem.2.1 0 0 (entryOnly 5) initState (by decide), ?_⟩
  have h := c2_theorem.2.2 0 initState (some 50) (by decide)
  rw [h]
  rfl

/-- C2 counterexample: a LIVE_TEMP for shelf 5 while the store holds 2
shelves raises an unhandled fault with nothing logged and nothing
skipped, contradicting the skipped-and-logged recovery the claim
asserts. -/
theorem c2_counterexample :
    (process_msg 0 initState (.liveTemp (some 5) (some 50))).2.isSome = true
      ∧ (process_msg 0 initState (.liveTemp (some 5) (some 50))).1 = initState := by
  exact ⟨rfl, rfl⟩

/-- C3 (amended): in dashboard2.0.py the registry behaves exactly as
claimed — `add_alarm` inserts a fresh record (with the caller's
description, acknowledged flag and timestamp) iff no record with the
(severity, shelf, name) key exists, appending exactly one log line, and
is a strict no-op otherwise; in dashboard.py, however, `add_alarm`
de-duplicates on the alarm NAME alone within a shelf, so a raise whose
name matches an existing record of a DIFFERENT severity is a no-op. -/
theorem c3_theorem :
    (∀ (now : ℚ) (sev : String) (shelf : Int) (name desc2 : String) (ack2 : Bool)
        (st : DashState) (r : AlarmRec),
      find_alarm sev shelf name st.alarms = some r →
      add_alarm now sev shelf name desc2 ack2 st = st)
    ∧ (∀ (now : ℚ) (sev : String) (shelf : Int) (name desc : String) (ack : Bool)
        (st : DashState),
      find_alarm sev shelf name st.alarms = none →
      find_alarm sev shelf name (add_alarm now sev shelf name desc ack st).alarms
          = some ⟨shelf, name, desc, now, ack⟩
        ∧ (add_alarm now sev shelf name desc ack st).logs
          = dequeAppend LOG_LIMIT st.logs
              ("[" ++ tsNow now ++ "] Alarm: [" ++ sev ++ "] S" ++ toString shelf
                ++ " " ++ name))
    ∧ (∀ (now : ℚ) (shelf : Nat) (name sev desc : String) (st : D1.State1)
        (arr : List D1.AlarmRec1),
      st.alarms.get? shelf = some arr →
      arr.any (fun a => a.name == name) = true →
      D1.add_alarm now shelf name sev desc st = (st, none)) := by
  refine ⟨add_alarm_found, ?_, ?_⟩
  · intro now sev shelf name desc ack st h
    refine ⟨?_, (add_alarm_not_found now sev shelf name desc ack st h).2⟩
    rw [find_alarm_add_same, h]
    rfl
  · intro now shelf name sev desc st arr hg hany
    simp only [D1.add_alarm, hg, hany]
    rfl

theorem c3_witness :
    add_alarm 0 "ERROR" 0 "OVERTEMP" "y" false
        (add_alarm 0 "ERROR" 0 "OVERTEMP" "x" false initState)
      = add_alarm 0 "ERROR" 0 "OVERTEMP" "x" false initState
      ∧ find_alarm "ERROR" 0 "OVERTEMP"
          (add_alarm 0 "ERROR" 0 "OVERTEMP" "x" false initState).alarms
        = some ⟨0, "OVERTEMP", "x", 0, false⟩
      ∧ D1.add_alarm 0 0 "OVERTEMP" "CRITICAL" "d2" D1.dupStart = (D1.dupStart, none) := by
  refine ⟨c3_theorem.1 0 "ERROR" 0 "OVERTEMP" "y" false _ ⟨0, "OVERTEMP", "x", 0, false⟩ ?h1,
    (c3_theorem.2.1 0 "ERROR" 0 "OVERTEMP" "x" false initState (by rfl)).1,
    c3_theorem.2.2 0 0 "OVERTEMP" "CRITICAL" "d2" D1.dupStart
      [⟨"OVERTEMP", "ERROR", false, "d", 0⟩] (by rfl) (by rfl)⟩
  case h1 =>
    rfl

/-- C3 counterexample: in dashboard.py, with an ERROR "OVERTEMP" record
present on shelf 0, raising CRITICAL "OVERTEMP" inserts nothing even
though no record with the key (CRITICAL, 0, OVERTEMP) exists — the
insert-iff-key-absent reading of the claim fails on that file. -/
theorem c3_counterexample :
    ((D1.dupStart.alarms.get? 0).getD []).all
        (fun a => !(a.severity == "CRITICAL" && a.name == "OVERTEMP")) = true
      ∧ (D1.add_alarm 0 0 "OVERTEMP" "CRITICAL" "d2" D1.dupStart).1.alarms
        = D1.dupStart.alarms := by
  exact ⟨rfl, rfl⟩

/-- C4: processing an authoritative alarm snapshot for shelf identity
`si` (an ALARM_STATE message, or the alarm portion of a STATUS entry for
index `idx`) succeeds and (1) leaves every alarm record belonging to any
other shelf unchanged in every severity bucket, (2) leaves no stale
record for the shelf in the covered CRITICAL/ERROR buckets — any record
found there afterwards corresponds to an entry flagged active in the
snapshot — and (3) re-raises each active entry with the source-provided
acknowledged state, description and the current timestamp. -/
theorem c4_theorem :
    (∀ (now : ℚ) (st : DashState) (si : Int) (as1 : List AlarmEntry)
        (c e : List AlarmRec),
      dictGet? st.alarms "CRITICAL" = some c →
      dictGet? st.alarms "ERROR" = some e →
      (∀ a ∈ as1, a.active.getD false = true → a.name.isSome) →
      (∀ it ∈ snapItems as1, it.sev = "CRITICAL" ∨ it.sev = "ERROR") →
      List.Pairwise (fun x y => ¬(x.sev = y.sev ∧ x.name = y.name)) (snapItems as1) →
      (process_msg now st (.alarmState (some si) (some as1))).2 = none
        ∧ (∀ q, (bucket (process_msg now st
                (.alarmState (some si) (some as1))).1.alarms q).filter
              (fun a => !(a.shelf == si - 1))
            = (bucket st.alarms q).filter (fun a => !(a.shelf == si - 1)))
        ∧ (∀ sev nm, (sev = "CRITICAL" ∨ sev = "ERROR") →
            (find_alarm sev (si - 1) nm (process_msg now st
                (.alarmState (some si) (some as1))).1.alarms).isSome = true →
            ∃ a ∈ as1, a.active.getD false = true ∧ a.name = some nm
              ∧ pyUpper (pyOrStr a.severity "ERROR") = sev)
        ∧ (∀ a ∈ as1, ∀ nm, a.active.getD false = true → a.name = some nm →
            find_alarm (pyUpper (pyOrStr a.severity "ERROR")) (si - 1) nm
                (process_msg now st (.alarmState (some si) (some as1))).1.alarms
              = some ⟨si - 1, nm, a.desc.getD nm, now, a.ack.getD false⟩))
    ∧ (∀ (now : ℚ) (idx : Int) (as1 : List AlarmEntry) (st : DashState)
        (c e : List AlarmRec),
      dictGet? st.alarms "CRITICAL" = some c →
      dictGet? st.alarms "ERROR" = some e →
      (∀ it ∈ statusItems as1, it.sev = "CRITICAL" ∨ it.sev = "ERROR") →
      List.Pairwise (fun x y => ¬(x.sev = y.sev ∧ x.name = y.name)) (statusItems as1) →
      (statusAlarmPortion now idx as1 st).2 = none
        ∧ (∀ q, (bucket (statusAlarmPortion now idx as1 st).1.alarms q).filter
              (fun a => !(a.shelf == idx))
            = (bucket st.alarms q).filter (fun a => !(a.shelf == idx)))
        ∧ (∀ sev nm, (sev = "CRITICAL" ∨ sev = "ERROR") →
            (find_alarm sev idx nm
                (statusAlarmPortion now idx as1 st).1.alarms).isSome = true →
            ∃ a ∈ as1, a.active.getD false = true ∧ a.name.getD "ALARM" = nm
              ∧ pyUpper (a.severity.getD "ERROR") = sev)
        ∧ (∀ a ∈ as1, a.active.getD false = true →
            find_alarm (pyUpper (a.severity.getD "ERROR")) idx (a.name.getD "ALARM")
                (statusAlarmPortion now idx as1 st).1.alarms
              = some ⟨idx, a.name.getD "ALARM", a.desc.getD (a.name.getD "ALARM"),
                  now, a.ack.getD false⟩)) := by
  constructor
  · intro now st si as1 c e hC hE hname hsev hdist
    obtain ⟨al2, hclr⟩ : ∃ al2, clearShelfAlarms (si - 1) st.alarms = some al2 :=
      ⟨_, clearShelfAlarms_eq (si - 1) st.alarms c e hC hE⟩
    have hsnap := raiseSnapshotAlarms_eq_raiseList now (si - 1) as1
      { st with alarms := al2 } hname
    have hrun : process_msg now st (.alarmState (some si) (some as1))
        = ({ raiseList now (si - 1) (snapItems as1) { st with alarms := al2 } with
              last_update_ts := now }, none) := by
      simp only [process_msg, Option.getD_some, hclr, hsnap]
    obtain ⟨hfr, hling, hraise⟩ :=
      replace_for_shelf_spec now (si - 1) (snapItems as1) st c e hC hE hsev hdist al2 hclr
    refine ⟨by rw [hrun], ?_, ?_, ?_⟩
    · intro q
      rw [hrun]
      exact hfr q
    · intro sev nm hsv hfound
      rw [hrun] at hfound
      obtain ⟨it, hit, hit_sev, hit_name⟩ := hling sev nm hsv hfound
      obtain ⟨a, ha, hact, nm2, hnm2, hiteq⟩ := (snapItems_mem as1 it).1 hit
      subst hiteq
      exact ⟨a, ha, hact, hit_name ▸ hnm2, hit_sev⟩
    · intro a ha nm hact hnm
      have hit : (⟨pyUpper (pyOrStr a.severity "ERROR"), nm, a.desc.getD nm,
          a.ack.getD false⟩ : RaiseItem) ∈ snapItems as1 :=
        (snapItems_mem as1 _).2 ⟨a, ha, hact, nm, hnm, rfl⟩
      have h3 := hraise _ hit
      rw [hrun]
      exact h3
  · intro now idx as1 st c e hC hE hsev hdist
    obtain ⟨al2, hclr⟩ : ∃ al2, clearShelfAlarms idx st.alarms = some al2 :=
      ⟨_, clearShelfAlarms_eq idx st.alarms c e hC hE⟩
    have hrun : statusAlarmPortion now idx as1 st
        = (raiseList now idx (statusItems as1) { st with alarms := al2 }, none) := by
      simp only [statusAlarmPortion, hclr, raiseEntryAlarms_eq_raiseList]
    obtain ⟨hfr, hling, hraise⟩ :=
      replace_for_shelf_spec now idx (statusItems as1) st c e hC hE hsev hdist al2 hclr
    refine ⟨by rw [hrun], ?_, ?_, ?_⟩
    · intro q
      rw [hrun]
      exact hfr q
    · intro sev nm hsv hfound
      rw [hrun] at hfound
      obtain ⟨it, hit, hit_sev, hit_name⟩ := hling sev nm hsv hfound
      obtain ⟨a, ha, hact, hiteq⟩ := (statusItems_mem as1 it).1 hit
      subst hiteq
      exact ⟨a, ha, hact, hit_name, hit_sev⟩
    · intro a ha hact
      have hit : (⟨pyUpper (a.severity.getD "ERROR"), a.name.getD "ALARM",
          a.desc.getD (a.name.getD "ALARM"), a.ack.getD false⟩ : RaiseItem)
          ∈ statusItems as1 :=
        (statusItems_mem as1 _).2 ⟨a, ha, hact, rfl⟩
      have h3 := hraise _ hit
      rw [hrun]
      exact h3

theorem c4_witness :
    (process_msg 0 snapStart (.alarmState (some 1) (some [snapEntryEx]))).2 = none
      ∧ find_alarm "CRITICAL" 0 "OVERHEAT"
          (process_msg 0 snapStart
            (.alarmState (some 1) (some [snapEntryEx]))).1.alarms
        = some ⟨0, "OVERHEAT", "hot", 0, true⟩
      ∧ find_alarm "CRITICAL" 0 "OLD"
          (process_msg 0 snapStart
            (.alarmState (some 1) (some [snapEntryEx]))).1.alarms = none
      ∧ find_alarm "CRITICAL" 1 "KEEP"
          (process_msg 0 snapStart
            (.alarmState (some 1) (some [snapEntryEx]))).1.alarms
        = some ⟨1, "KEEP", "d", 0, false⟩ := by
  have h := c4_theorem.1 0 snapStart 1 [snapEntryEx]
    [⟨0, "OLD", "d", 0, false⟩, ⟨1, "KEEP", "d", 0, false⟩] [] rfl rfl
    (by
      intro a ha _
      rw [List.mem_singleton] at ha
      subst ha
      rfl)
    (by
      intro it hit
      have hs : snapItems [snapEntryEx]
          = [⟨"CRITICAL", "OVERHEAT", "hot", true⟩] := rfl
      rw [hs, List.mem_singleton] at hit
      subst hit
      exact Or.inl rfl)
    (by
      have hs : snapItems [snapEntryEx]
          = [⟨"CRITICAL", "OVERHEAT", "hot", true⟩] := rfl
      rw [hs]
      exact List.pairwise_singleton _ _)
  exact ⟨h.1, by rfl, by rfl, by rfl⟩

/-- C5 (amended): `ack_all_alarms` acknowledges every record in the two
literal buckets CRITICAL and ERROR and appends exactly one log entry,
but any other severity bucket is left entirely untouched — its records
keep `acknowledged = false`. -/
theorem c5_theorem (now : ℚ) (st : DashState) (c e : List AlarmRec)
    (hC : dictGet? st.alarms "CRITICAL" = some c)
    (hE : dictGet? st.alarms "ERROR" = some e) :
    (ack_all_alarms now st).2 = none
      ∧ bucket (ack_all_alarms now st).1.alarms "CRITICAL"
        = c.map (fun a => { a with ack := true })
      ∧ bucket (ack_all_alarms now st).1.alarms "ERROR"
        = e.map (fun a => { a with ack := true })
      ∧ (∀ q, q ≠ "CRITICAL" → q ≠ "ERROR" →
          dictGet? (ack_all_alarms now st).1.alarms q = dictGet? st.alarms q)
      ∧ (ack_all_alarms now st).1.logs
        = dequeAppend LOG_LIMIT st.logs ("[" ++ tsNow now ++ "] Ack all alarms") := by
  have hE1 : dictGet? (dictSet st.alarms "CRITICAL"
      (c.map fun a => { a with ack := true })) "ERROR" = some e := by
    rw [dictGet?_dictSet]
    simp [hE]
  refine ⟨?_, ?_, ?_, ?_, ?_⟩
  · simp only [ack_all_alarms, ackBucket, hC, hE1]
  · simp only [ack_all_alarms, ackBucket, hC, hE1]
    rw [bucket_dictSet, if_neg (by decide), bucket_dictSet, if_pos rfl]
  · simp only [ack_all_alarms, ackBucket, hC, hE1]
    rw [bucket_dictSet, if_pos rfl]
  · intro q h1 h2
    simp only [ack_all_alarms, ackBucket, hC, hE1]
    rw [dictGet?_dictSet, if_neg (fun hh => h2 hh.symm),
      dictGet?_dictSet, if_neg (fun hh => h1 hh.symm)]
  · simp only [ack_all_alarms, ackBucket, hC, hE1]

theorem c5_witness :
    (ack_all_alarms 0 (add_alarm 0 "WARN" 0 "X" "d" false initState)).2 = none
      ∧ bucket (ack_all_alarms 0
          (add_alarm 0 "WARN" 0 "X" "d" false initState)).1.alarms "CRITICAL" = []
      ∧ dictGet? (ack_all_alarms 0
            (add_alarm 0 "WARN" 0 "X" "d" false initState)).1.alarms "WARN"
        = dictGet? (add_alarm 0 "WARN" 0 "X" "d" false initState).alarms "WARN" := by
  have h := c5_theorem 0 (add_alarm 0 "WARN" 0 "X" "d" false initState) [] [] rfl rfl
  exact ⟨h.1, h.2.1, h.2.2.2.1 "WARN" (by decide) (by decide)⟩

/-- C5 counterexample: after raising a WARN alarm, `ack_all_alarms`
returns without touching the WARN bucket — its record still has
`acknowledged = false`, so NOT every record in the registry is
acknowledged. -/
theorem c5_counterexample :
    (ack_all_alarms 0 (add_alarm 0 "WARN" 0 "X" "d" false initState)).2 = none
      ∧ (bucket (ack_all_alarms 0
          (add_alarm 0 "WARN" 0 "X" "d" false initState)).1.alarms "WARN").any
          (fun a => !a.ack) = true := by
  exact ⟨rfl, rfl⟩

/-- C6 (amended): the registry accepts unknown severity strings as new
bucket keys on raise; lookup (`_find_alarm`, which uses `.get`) on an
unknown severity returns empty rather than erroring, and acknowledging
via that lookup is a no-op; but `clear_alarm` reads
`alarms[severity]` directly and IS fatal (KeyError) when the severity
bucket does not exist — it is safe only when the bucket is present. -/
theorem c6_theorem :
    (∀ (now : ℚ) (sev : String) (shelf : Int) (name desc : String) (ack : Bool)
        (st : DashState),
      (dictGet? (add_alarm now sev shelf name desc ack st).alarms sev).isSome = true)
    ∧ (∀ (sev : String) (shelf : Int) (name : String) (al : AlarmDict),
        dictGet? al sev = none → find_alarm sev shelf name al = none)
    ∧ (∀ (now : ℚ) (sev : String) (shelf : Int) (name : String) (st : DashState),
        dictGet? st.alarms sev = none → ack_alarm now sev shelf name st = st)
    ∧ (∀ (now : ℚ) (sev : String) (shelf : Int) (name : String) (st : DashState),
        dictGet? st.alarms sev = none →
        clear_alarm now sev shelf name st = (st, some "KeyError: alarms"))
    ∧ (∀ (now : ℚ) (sev : String) (shelf : Int) (name : String) (st : DashState)
        (arr : List AlarmRec),
        dictGet? st.alarms sev = some arr →
        (clear_alarm now sev shelf name st).2 = none) := by
  refine ⟨?_, ?_, ?_, clear_alarm_keyerror, clear_alarm_ok⟩
  · intro now sev shelf name desc ack st
    have h := find_alarm_add_same now sev shelf name desc ack st
    obtain ⟨arr, harr⟩ := dictGet?_isSome_of_find_alarm sev shelf name _ _ h
    rw [harr]
    rfl
  · intro sev shelf name al h
    rw [find_alarm_eq_bucket]
    unfold bucket
    rw [h]
    rfl
  · intro now sev shelf name st h
    have hfa : find_alarm sev shelf name st.alarms = none := by
      rw [find_alarm_eq_bucket]
      unfold bucket
      rw [h]
      rfl
    simp only [ack_alarm, hfa]

theorem c6_witness :
    (dictGet? (add_alarm 0 "WARN" 0 "X" "d" false initState).alarms "WARN").isSome = true
      ∧ find_alarm "WARN" 0 "X" initState.alarms = none
      ∧ ack_alarm 0 "WARN" 0 "X" initState = initState
      ∧ clear_alarm 0 "WARN" 0 "X" initState = (initState, some "KeyError: alarms")
      ∧ (clear_alarm 0 "CRITICAL" 0 "X" initState).2 = none := by
  exact ⟨c6_theorem.1 0 "WARN" 0 "X" "d" false initState,
    c6_theorem.2.1 "WARN" 0 "X" initState.alarms rfl,
    c6_theorem.2.2.1 0 "WARN" 0 "X" initState rfl,
    c6_theorem.2.2.2.1 0 "WARN" 0 "X" initState rfl,
    c6_theorem.2.2.2.2 0 "CRITICAL" 0 "X" initState [] rfl⟩

/-- C6 counterexample: clearing an alarm under a severity string with no
bucket ("WARN" on the initial state) raises an unhandled KeyError, so
not every registry operation on an unknown severity is non-fatal. -/
theorem c6_counterexample :
    (clear_alarm 0 "WARN" 0 "X" initState).2.isSome = true
      ∧ dictGet? initState.alarms "WARN" = none := by
  exact ⟨rfl, rfl⟩

/-- C7 (amended): undecodable serial lines are logged as raw text by
`read_all` and dropped from the decoded batch without affecting any
later message, and a decodable JSON object of unrecognized kind is a
strict no-op that reports no error; but a decodable line whose
top-level JSON value is NOT an object (a list, string, number or null)
is appended to the batch as-is, and processing it raises an unhandled
AttributeError (`msg.get` on a non-dict) that aborts the rest of the
batch — so not every malformed message leaves the subsequent messages
of its batch unaffected. -/
theorem c7_theorem :
    (∀ (now : ℚ) (st : DashState) (raw : String),
      process_msg now st (.other raw) = (st, none))
    ∧ (∀ (now : ℚ) (s2 : String) (xs ys : List Msg) (st : DashState),
      process_batch now (xs ++ Msg.other s2 :: ys) st = process_batch now (xs ++ ys) st)
    ∧ (∀ (ls1 ls2 : List RawLine) (s2 : String),
      (ls1 ++ RawLine.bad s2 :: ls2).length ≤ 200 →
      decodedMsgs (ls1 ++ RawLine.bad s2 :: ls2) = decodedMsgs (ls1 ++ ls2))
    ∧ (∀ (now : ℚ) (ls1 ls2 : List RawLine) (s2 : String) (st : DashState),
      (ls1 ++ RawLine.bad s2 :: ls2).length ≤ 200 →
      coreOf (read_from_pi now (ls1 ++ RawLine.bad s2 :: ls2) st).1
          = coreOf (read_from_pi now (ls1 ++ ls2) st).1
        ∧ (read_from_pi now (ls1 ++ RawLine.bad s2 :: ls2) st).2
          = (read_from_pi now (ls1 ++ ls2) st).2)
    ∧ (∀ (now : ℚ) (st : DashState),
      process_msg now st .nonDict = (st, some "AttributeError: get"))
    ∧ (∀ (now : ℚ) (st : DashState) (ys : List Msg),
      process_batch now (Msg.nonDict :: ys) st = (st, some "AttributeError: get")) :=
  ⟨fun _ _ _ => rfl,
    fun now s2 xs ys st => process_batch_skip_other now s2 xs ys st,
    decodedMsgs_skip_bad,
    read_from_pi_skip_bad,
    fun _ _ => rfl,
    fun _ _ _ => rfl⟩

theorem c7_witness :
    process_msg 0 initState (.other "junk") = (initState, none)
      ∧ process_batch 0 [Msg.other "junk", Msg.liveTemp (some 1) (some 50)] initState
        = process_batch 0 [Msg.liveTemp (some 1) (some 50)] initState
      ∧ decodedMsgs [RawLine.bad "junk", RawLine.ok (.other "x")]
        = decodedMsgs [RawLine.ok (.other "x")]
      ∧ coreOf (read_from_pi 0 [RawLine.bad "junk"] initState).1
        = coreOf (read_from_pi 0 [] initState).1
      ∧ process_batch 0 [Msg.nonDict, Msg.liveTemp (some 1) (some 50)] initState
        = (initState, some "AttributeError: get") := by
  refine ⟨c7_theorem.1 0 initState "junk",
    c7_theorem.2.1 0 "junk" [] [Msg.liveTemp (some 1) (some 50)] initState,
    c7_theorem.2.2.1 [] [RawLine.ok (.other "x")] "junk" (by decide),
    (c7_theorem.2.2.2.1 0 [] [] "junk" initState (by decide)).1,
    c7_theorem.2.2.2.2.2 0 initState [Msg.liveTemp (some 1) (some 50)]⟩

/-- C7 counterexample: a serial batch whose first line decodes to a
non-object JSON value (`[1,2,3]`-like) followed by a well-formed
LIVE_TEMP message aborts with an AttributeError before the LIVE_TEMP is
applied — the store's latest temperatures stay empty, although the same
LIVE_TEMP alone would have recorded 50 °C for shelf 1 — refuting the
claim that a malformed message never prevents the processing of the
subsequent messages in its batch. -/
theorem c7_counterexample :
    (read_from_pi 0 [RawLine.ok Msg.nonDict,
        RawLine.ok (Msg.liveTemp (some 1) (some 50))] initState).2
      = some "AttributeError: get"
      ∧ (read_from_pi 0 [RawLine.ok Msg.nonDict,
          RawLine.ok (Msg.liveTemp (some 1) (some 50))] initState).1.latest_temp
        = [none, none]
      ∧ (read_from_pi 0
          [RawLine.ok (Msg.liveTemp (some 1) (some 50))] initState).1.latest_temp
        = [some 50, none] := by
  exact ⟨rfl, rfl, rfl⟩

/-- C8: the demo generator's threshold heuristic never leaves a shelf
with both a CRITICAL OVERHEAT and an ERROR OVERTEMP record — whichever
branch ran cleared the other name (and below both thresholds both are
cleared) — and a full demo tick for a shelf either ran the heuristic
(so the exclusion holds) or left the alarm registry untouched. -/
theorem c8_theorem :
    (∀ (now cur upper : ℚ) (i : Int) (st : DashState),
      ((find_alarm "CRITICAL" i "OVERHEAT"
            (demo_alarm_heuristic now cur upper i st).1.alarms).isSome
        && (find_alarm "ERROR" i "OVERTEMP"
            (demo_alarm_heuristic now cur upper i st).1.alarms).isSome) = false)
    ∧ (∀ (now delta : ℚ) (i : Nat) (st : DashState),
      ((find_alarm "CRITICAL" (Int.ofNat i) "OVERHEAT"
            (demoShelfTick now delta i st).1.alarms).isSome
        && (find_alarm "ERROR" (Int.ofNat i) "OVERTEMP"
            (demoShelfTick now delta i st).1.alarms).isSome) = false
        ∨ (demoShelfTick now delta i st).1.alarms = st.alarms) :=
  ⟨demo_heuristic_exclusion, demoShelfTick_exclusion⟩

/-- C9 (amended): after a successful STATUS message the maintenance life
ceilings come from the message's maintenance field when it is a list of
length ≥ 2, stay at their prior values when the field is present but not
such a list, and — because the field defaults to `[2000, 3000]` when
absent — are RESET to 2000/3000 by a STATUS that carries no maintenance
field, rather than left unchanged. -/
theorem c9_theorem (now : ℚ) (st : DashState)
    (shelvesOpt : Option (List ShelfEntry)) (maintOpt : Option MaintVal)
    (h : (process_msg now st (.status shelvesOpt maintOpt)).2 = none) :
    (process_msg now st (.status shelvesOpt maintOpt)).1.maintenance.fan_life_hours
        = (maintCeilings maintOpt st.maintenance.fan_life_hours
            st.maintenance.element_life_hours).1
      ∧ (process_msg now st (.status shelvesOpt maintOpt)).1.maintenance.element_life_hours
        = (maintCeilings maintOpt st.maintenance.fan_life_hours
            st.maintenance.element_life_hours).2
      ∧ (∀ f0 e0 : ℚ, maintCeilings none f0 e0 = (2000, 3000)) := by
  have h2 := process_msg_status_success_maintenance now st shelvesOpt maintOpt h
  exact ⟨by rw [h2], by rw [h2], fun f0 e0 => rfl⟩

theorem c9_witness :
    (process_msg 0 ceilStart
        (.status (some [entryOnly 1, entryOnly 2]) (some MaintVal.nonList))).2 = none
      ∧ (process_msg 0 ceilStart
          (.status (some [entryOnly 1, entryOnly 2])
            (some MaintVal.nonList))).1.maintenance.fan_life_hours = 5000
      ∧ (process_msg 0 ceilStart
          (.status (some [entryOnly 1, entryOnly 2])
            (some MaintVal.nonList))).1.maintenance.element_life_hours = 6000 := by
  have h := c9_theorem 0 ceilStart (some [entryOnly 1, entryOnly 2])
    (some MaintVal.nonList) (by rfl)
  exact ⟨rfl, h.1.trans (by rfl), h.2.1.trans (by rfl)⟩

/-- C9 counterexample: a successful STATUS that carries NO maintenance
field does not leave the ceilings unchanged — it resets them from their
prior 5000/6000 to the hard-coded defaults 2000/3000. -/
theorem c9_counterexample :
    ceilStart.maintenance.fan_life_hours = 5000
      ∧ ceilStart.maintenance.element_life_hours = 6000
      ∧ (process_msg 0 ceilStart (.status (some [entryOnly 1, entryOnly 2]) none)).2 = none
      ∧ (process_msg 0 ceilStart
          (.status (some [entryOnly 1, entryOnly 2]) none)).1.maintenance.fan_life_hours
        = 2000
      ∧ (process_msg 0 ceilStart
          (.status (some [entryOnly 1, entryOnly 2]) none)).1.maintenance.element_life_hours
        = 3000 := by
  exact ⟨rfl, rfl, rfl, rfl, rfl⟩

/-- C10: after a successful STATUS message the single process-wide
run-hour counters hold the `fanHours` / `elementHours` value of the LAST
per-shelf entry that provided the field (entries overwrite in entry
order), and keep the previously stored value when no entry provides
it. -/
theorem c10_theorem (now : ℚ) (st : DashState)
    (shelvesOpt : Option (List ShelfEntry)) (maintOpt : Option MaintVal)
    (h : (process_msg now st (.status shelvesOpt maintOpt)).2 = none) :
    (process_msg now st (.status shelvesOpt maintOpt)).1.maintenance.fan_hours
        = ((shelvesOpt.getD []).reverse.findSome? (fun sh2 => sh2.fanHours)).getD
            st.maintenance.fan_hours
      ∧ (process_msg now st (.status shelvesOpt maintOpt)).1.maintenance.element_hours
        = ((shelvesOpt.getD []).reverse.findSome? (fun sh2 => sh2.elementHours)).getD
            st.maintenance.element_hours := by
  have h2 := process_msg_status_success_maintenance now st shelvesOpt maintOpt h
  constructor
  · rw [h2]
    exact foldl_getD_eq_findSome? (fun sh2 => sh2.fanHours) (shelvesOpt.getD [])
      st.maintenance.fan_hours
  · rw [h2]
    exact foldl_getD_eq_findSome? (fun sh2 => sh2.elementHours) (shelvesOpt.getD [])
      st.maintenance.element_hours

theorem c10_witness :
    (process_msg 0 initState
        (.status (some [entryHours 1 10 20, entryHours 2 30 40]) none)).2 = none
      ∧ (process_msg 0 initState
          (.status (some [entryHours 1 10 20, entryHours 2 30 40])
            none)).1.maintenance.fan_hours = 30
      ∧ (process_msg 0 initState
          (.status (some [entryHours 1 10 20, entryHours 2 30 40])
            none)).1.maintenance.element_hours = 40 := by
  have h := c10_theorem 0 initState (some [entryHours 1 10 20, entryHours 2 30 40])
    none (by rfl)
  exact ⟨rfl, h.1.trans (by rfl), h.2.trans (by rfl)⟩

end D2

end StreamDash
